import Mathlib

/-! Exchange adapters: a shallow embedding.

The adapters of `exchange/changelly`, `exchange/changenow`, `exchange/fixedfloat` and
`instantswap/exchange/stealthex` are translated function by function. A Go package is a
namespace, a method `(c *T) M` of package `p` is `p.T.M`.

Conventions of the embedding:

* a Go `string` is a Lean `String` (a sequence of Unicode scalar values);
* a Go `error` is its message, `Option String` standing for a possibly-nil error;
* a Go `float64` is the type `Float64` below (IEEE 754 binary64, round to nearest even);
* a call of an operation takes the history of effects so far and returns the pair
  `(res, err)` of the Go function together with the extended history;
* the transport (`client.Do`), the clock and the standard-library functions that are not
  part of the repository (`encoding/json`, `strconv`, the Unicode case tables) are
  fields of an environment whose answers are arbitrary.
-/

set_option autoImplicit false

/-! ## Strings -/

/-- Go `unicode.ToLower` on one rune: the ASCII letters are shifted in place, every rune
above `MaxASCII` is looked up in the Unicode case table `tbl`. -/
def toLowerRune (tbl : Char → Char) (r : Char) : Char :=
  if r.toNat ≤ 127 then
    if 'A'.toNat ≤ r.toNat ∧ r.toNat ≤ 'Z'.toNat then Char.ofNat (r.toNat + 32) else r
  else tbl r

/-- Go `strings.ToLower`: every rune of the string is mapped through `unicode.ToLower`
(on a string of ASCII runes this is the byte loop of the fast path). -/
def ToLower (tbl : Char → Char) (s : String) : String :=
  String.mk (s.data.map (toLowerRune tbl))

/-- The message `msg` contains `sub` as a contiguous substring (Go `strings.Contains`). -/
def Contains (msg sub : String) : Prop :=
  sub.data <:+: msg.data

instance (msg sub : String) : Decidable (Contains msg sub) :=
  inferInstanceAs (Decidable (sub.data <:+: msg.data))

/-! ## Floating point

Go `float64` values: IEEE 754 binary64. A finite value is `(-1)^neg * m * 2^e`; the values
produced by the operations below are in canonical form (`m < 2^53`, `-1074 ≤ e ≤ 971`, and
`2^52 ≤ m` unless `e = -1074`). All NaNs are identified. -/

/-- A Go `float64`. -/
inductive Float64 where
  | nan
  | inf (neg : Bool)
  | fin (neg : Bool) (m : Nat) (e : Int)
deriving DecidableEq, Repr

namespace Float64

/-- The zero of the given sign. -/
def signedZero (neg : Bool) : Float64 := fin neg 0 (-1074)

/-- The Go zero value of `float64`, `+0`. -/
def zero : Float64 := signedZero false

instance : Inhabited Float64 := ⟨zero⟩

/-- The quotient of `n` by `d` rounded to the nearest integer, ties to even. -/
def divNearestEven (n d : Nat) : Nat :=
  let q := n / d
  let r := n % d
  if 2 * r < d then q
  else if d < 2 * r then q + 1
  else if q % 2 = 0 then q else q + 1

/-- The position of the highest set bit of `n` (`0` for `n < 2`), by halving; `fuel` bounds
the number of halvings and `n` itself is always enough. -/
def log2Fuel : Nat → Nat → Nat
  | 0, _ => 0
  | fuel + 1, n => if n < 2 then 0 else log2Fuel fuel (n / 2) + 1

/-- The floor of the binary logarithm of `n`. -/
def log2 (n : Nat) : Nat := log2Fuel n n

/-- The numerator and denominator of `p / (q * 2^e)`. -/
def scaled (p q : Nat) (e : Int) : Nat × Nat :=
  match e with
  | Int.ofNat k => (p, q * 2 ^ k)
  | Int.negSucc k => (p * 2 ^ (k + 1), q)

/-- The binary64 value nearest to `(-1)^neg * p / q` for positive `p` and `q` (ties to even,
gradual underflow, overflow to infinity). -/
def roundQuot (neg : Bool) (p q : Nat) : Float64 :=
  -- with `e0` the quotient `p / (q * 2^e0)` lies in `[2^52, 2^54)`
  let e0 : Int := (log2 p : Int) - (log2 q : Int) - 53
  let s0 := scaled p q e0
  let e1 : Int := if s0.1 / s0.2 < 2 ^ 53 then e0 else e0 + 1
  let e : Int := if e1 < -1074 then -1074 else e1
  let s := scaled p q e
  let m := divNearestEven s.1 s.2
  if m = 2 ^ 53 then
    if e + 1 > 971 then inf neg else fin neg (2 ^ 52) (e + 1)
  else if e > 971 then inf neg
  else fin neg m e

/-- The `float64` a decimal constant `num / den` of the source denotes (`0.4` is
`lit 4 10`): the nearest binary64 value. -/
def lit (num den : Nat) : Float64 :=
  if num = 0 then zero else roundQuot false num den

/-- Go `x / y` on `float64`: IEEE 754 division, which never traps. -/
def div : Float64 → Float64 → Float64
  | nan, _ => nan
  | _, nan => nan
  | inf _, inf _ => nan
  | inf s, fin t _ _ => inf (xor s t)
  | fin s _ _, inf t => signedZero (xor s t)
  | fin s m e, fin t n f =>
    if n = 0 then
      if m = 0 then nan else inf (xor s t)
    else if m = 0 then signedZero (xor s t)
    else
      let sc := scaled m n (f - e)
      roundQuot (xor s t) sc.1 sc.2

/-- Go `x == y` on `float64`: NaN equals nothing, the two zeros are equal. -/
def eq : Float64 → Float64 → Bool
  | fin s m e, fin t n f =>
    if m = 0 ∨ n = 0 then decide (m = 0 ∧ n = 0)
    else
      match e - f with
      | Int.ofNat k => s == t && decide (m * 2 ^ k = n)
      | Int.negSucc k => s == t && decide (m = n * 2 ^ (k + 1))
  | inf s, inf t => s == t
  | _, _ => false

/-- The value is positive or negative infinity or a NaN, none of which is a number. -/
def isFinite : Float64 → Bool
  | fin _ _ _ => true
  | _ => false

end Float64


/-! ## The shared package

The declarations of the package the adapters import as `lightningswap` (`instantswap` in
stealthex) are not among the sources; the types below list the fields the adapters read
and write. -/

namespace lightningswap

/-- Modelled from the spec: the `Status` constants of the shared package, a closed
enumeration of ten distinct values. -/
inductive Status where
  | OrderStatusNew
  | OrderStatusWaitingForDeposit
  | OrderStatusDepositReceived
  | OrderStatusExchanging
  | OrderStatusSending
  | OrderStatusCompleted
  | OrderStatusFailed
  | OrderStatusRefunded
  | OrderStatusExpired
  | OrderStatusUnknown
deriving DecidableEq, Repr

/-- Modelled from the spec: the backend configuration, API key, API secret and debug
flag. -/
structure ExchangeConfig where
  ApiKey : String := ""
  ApiSecret : String := ""
  Debug : Bool := false
deriving DecidableEq, Repr

/-- Modelled from the spec: the HTTP client an adapter holds, built by `NewClient` from
the backend name and the configuration (the transport itself is `Runtime.Do`). -/
structure Client where
  name : String
  conf : ExchangeConfig
deriving DecidableEq, Repr

/-- Modelled from the spec: the constructor `NewClient(name, &conf, ...)` of the shared
package; a signing hook passed to it acts inside the transport. -/
def NewClient (name : String) (conf : ExchangeConfig) : Client :=
  { name := name, conf := conf }

/-- The request `ExchangeRateRequest`. -/
structure ExchangeRateRequest where
  From : String := ""
  To : String := ""
  Amount : Float64 := Float64.zero
deriving DecidableEq, Repr

/-- The result `ExchangeRateInfo`. -/
structure ExchangeRateInfo where
  ExchangeRate : Float64 := Float64.zero
  Min : Float64 := Float64.zero
  Max : Float64 := Float64.zero
  EstimatedAmount : Float64 := Float64.zero
deriving DecidableEq, Repr

/-- The result `EstimateAmount`. -/
structure EstimateAmount where
  EstimatedAmount : Float64 := Float64.zero
  NetworkFee : Float64 := Float64.zero
  ServiceCommission : Float64 := Float64.zero
  TransactionSpeedForecast : String := ""
  WarningMessage : String := ""
deriving DecidableEq, Repr

/-- The result `QueryLimits`. -/
structure QueryLimits where
  Min : Float64 := Float64.zero
  Max : Float64 := Float64.zero
deriving DecidableEq, Repr

/-- An element of the result of `QueryRates`. -/
structure QueryRate where
  Name : String := ""
  Value : Float64 := Float64.zero
deriving DecidableEq, Repr

/-- An element of the result of `QueryActiveCurrencies`. -/
structure ActiveCurr where
  CurrencyType : String := ""
  Name : String := ""
deriving DecidableEq, Repr

/-- The request `CreateOrder`. -/
structure CreateOrder where
  RefundAddress : String := ""
  Destination : String := ""
  FromCurrency : String := ""
  InvoicedAmount : Float64 := Float64.zero
  ToCurrency : String := ""
  ExtraID : String := ""
  RefundExtraID : String := ""
deriving DecidableEq, Repr

/-- The result `CreateResultInfo`. -/
structure CreateResultInfo where
  UUID : String := ""
  Destination : String := ""
  ExtraID : String := ""
  FromCurrency : String := ""
  ToCurrency : String := ""
  DepositAddress : String := ""
  ChargedFee : Float64 := Float64.zero
  PayoutExtraID : String := ""
deriving DecidableEq, Repr

/-- The result `UpdateOrderResultInfo`, of which no adapter sets a field. -/
structure UpdateOrderResultInfo where
deriving DecidableEq, Repr

/-- The result `OrderInfoResult`; the zero value of `InternalStatus` is taken to be
`OrderStatusUnknown`. -/
structure OrderInfoResult where
  LastUpdate : String := ""
  ReceiveAmount : Float64 := Float64.zero
  TxID : String := ""
  Status : String := ""
  InternalStatus : lightningswap.Status := lightningswap.Status.OrderStatusUnknown
  Confirmations : String := ""
deriving DecidableEq, Repr

end lightningswap

/-! ## Effects and the environment -/

/-- One call of the transport, the arguments of `client.Do(base, method, path, body,
signed)`. -/
structure Request where
  base : String
  method : String
  path : String
  body : String
  signed : Bool
deriving DecidableEq, Repr

/-- An observable effect of an operation: a transport call or a `time.Sleep`. -/
inductive Effect where
  | call (req : Request)
  | sleep (nanoseconds : Int)
deriving DecidableEq, Repr

/-- The history of effects, oldest first. -/
abbrev Trace := List Effect

/-- The Go constant `time.Second`, in nanoseconds. -/
def timeSecond : Int := 1000000000

/-- The number of transport calls of a history. -/
def transportCalls (t : Trace) : Nat :=
  (t.filter (fun e => match e with | Effect.call _ => true | Effect.sleep _ => false)).length

/-- What lies outside the repository: the transport and the clock, whose answers may
depend on the history, and the standard-library functions on runes and floats. -/
structure Runtime where
  /-- The method `client.Do`: the raw response bytes or a transport error. -/
  Do : lightningswap.Client → Trace → Request → Except String String
  /-- The value of `time.Now().Unix()`. -/
  now : Trace → Int
  /-- The Unicode lower-case table on the runes above ASCII. -/
  unicodeLower : Char → Char
  /-- The formatting of a float with 8 decimals, `strconv.FormatFloat(x, 'f', 8, 64)` and
  the verb `%.8f`. -/
  formatFloat8 : Float64 → String
  /-- The function `strconv.ParseFloat(s, 64)`. -/
  parseFloat : String → Except String Float64

/-- What a Go function with results `(res, err)` returns, with the history after it. -/
structure Ret (α : Type) where
  res : α
  err : Option String
  trace : Trace
deriving DecidableEq, Repr

/-- Go `strconv.FormatInt(n, 10)`. -/
def formatInt (n : Int) : String := toString n

/-- The Go zero value of a type that takes part in a struct comparison, with the test
`x == zero`. -/
class GoZero (ρ : Type) where
  zero : ρ
  eqZero : ρ → Bool
  eqZero_zero : eqZero zero = true

instance : GoZero Unit := ⟨(), fun _ => true, rfl⟩

/-! ## Package `changelly` -/

namespace changelly

open lightningswap (Status)

/-- The constant `API_BASE` of `changelly.go`. -/
def API_BASE : String := "https://api.changelly.com/"

/-- The constant `LIBNAME` of `changelly.go`. -/
def LIBNAME : String := "changelly"

/-- The JSON-RPC request envelope `jsonRequest` (declared outside the sources). -/
structure jsonRequest where
  ID : String := ""
  JSONRPC : String := ""
  Method : String := ""
  Params : List (String × String) := []
deriving DecidableEq, Repr

/-- The JSON-RPC response envelope `jsonResponse`: two raw messages, `Error` possibly
nil. -/
structure jsonResponse where
  Result : String := ""
  Error : Option String := none
deriving DecidableEq, Repr

/-- The decoded error payload `jsonError`. -/
structure jsonError where
  Message : String := ""
deriving DecidableEq, Repr

/-- The decoded payload `CreateResult` of `createTransaction`. -/
structure CreateResult where
  UUID : String := ""
  PayoutAddress : String := ""
  CurrencyFrom : String := ""
  CurrencyTo : String := ""
  PayinAddress : String := ""
  ChangellyFee : Float64 := Float64.zero
  PayinExtraID : String := ""
  PayoutExtraID : String := ""
deriving DecidableEq, Repr

/-- A decoded record `OrderInfoResult` of `getTransactions`: the fields `OrderInfo` reads,
and in `other` the fields of the struct it does not read. -/
structure OrderInfoResult (ρ : Type) where
  UUID : String
  AmountTo : Float64
  PayinConfirmations : String
  PayoutHash : String
  Status : String
  other : ρ
deriving DecidableEq, Repr

/-- The composite literal `OrderInfoResult{}`. -/
def OrderInfoResult.zero {ρ : Type} [GoZero ρ] : OrderInfoResult ρ :=
  { UUID := "", AmountTo := Float64.zero, PayinConfirmations := "", PayoutHash := "",
    Status := "", other := GoZero.zero }

/-- The comparison `v == (OrderInfoResult{})`, field by field with Go `==`. -/
def OrderInfoResult.eqZero {ρ : Type} [GoZero ρ] (v : OrderInfoResult ρ) : Bool :=
  v.UUID == "" && Float64.eq v.AmountTo Float64.zero && v.PayinConfirmations == ""
    && v.PayoutHash == "" && v.Status == "" && GoZero.eqZero v.other

/-- The functions of `encoding/json` on the payloads of this package. -/
structure Json (ρ : Type) where
  marshal : jsonRequest → Except String String
  unmarshalResponse : String → Except String jsonResponse
  unmarshalError : String → Except String jsonError
  unmarshalString : String → Except String String
  unmarshalCreateResult : String → Except String CreateResult
  unmarshalOrders : String → Except String (List (OrderInfoResult ρ))

/-- The struct `Changelly`. -/
structure Changelly where
  client : lightningswap.Client
  conf : lightningswap.ExchangeConfig
deriving DecidableEq, Repr

/-- The constructor `New` of `changelly.go`, which never fails. -/
def New (conf : lightningswap.ExchangeConfig) : Except String Changelly :=
  let client := lightningswap.NewClient LIBNAME conf
  Except.ok { client := client, conf := conf }

/-- The function `GetLocalStatus` of `changelly.go`. -/
def GetLocalStatus (tbl : Char → Char) (status : String) : Status :=
  let status := ToLower tbl status
  match status with
  | "finished" => Status.OrderStatusCompleted
  | "waiting" => Status.OrderStatusExchanging
  | "confirming" => Status.OrderStatusDepositReceived
  | "refunded" => Status.OrderStatusRefunded
  | "expired" => Status.OrderStatusExpired
  | "new" => Status.OrderStatusNew
  | "exchanging" => Status.OrderStatusExchanging
  | "sending" => Status.OrderStatusSending
  | "failed" => Status.OrderStatusFailed
  | _ => Status.OrderStatusUnknown

/-- The function `handleErr`. -/
def handleErr {ρ : Type} (js : Json ρ) (r : String) : Option String :=
  match js.unmarshalError r with
  | Except.error e => some e
  | Except.ok errorVal =>
    if errorVal.Message ≠ "" then
      let errorStr := LIBNAME ++ ":error: " ++ errorVal.Message
      some errorStr
    else none

/-- The block `if response.Error != nil { err = handleErr(response.Error) ... }` shared by
the JSON-RPC operations: the error it returns with, if any. -/
def responseError {ρ : Type} (js : Json ρ) (response : jsonResponse) : Option String :=
  match response.Error with
  | some raw => handleErr js raw
  | none => none

/-- The method `EstimateAmount`. -/
def Changelly.EstimateAmount {ρ : Type} (rt : Runtime) (js : Json ρ) (c : Changelly)
    (vars : lightningswap.ExchangeRateRequest) (h : Trace) : Ret lightningswap.EstimateAmount :=
  let amountStr := rt.formatFloat8 vars.Amount
  let nonce := formatInt (rt.now h)
  let params := [("from", ToLower rt.unicodeLower vars.From),
    ("to", ToLower rt.unicodeLower vars.To), ("amount", amountStr)]
  let tmpPayload : jsonRequest :=
    { ID := "estimateAmount" ++ nonce, JSONRPC := "2.0", Method := "getExchangeAmount",
      Params := params }
  match js.marshal tmpPayload with
  | Except.error e => { res := {}, err := some (LIBNAME ++ ":error: " ++ e), trace := h }
  | Except.ok payload =>
    let req : Request :=
      { base := API_BASE, method := "POST", path := "", body := payload, signed := true }
    let h1 := h ++ [Effect.call req]
    match rt.Do c.client h req with
    | Except.error e => { res := {}, err := some (LIBNAME ++ ":error: " ++ e), trace := h1 }
    | Except.ok r =>
      match js.unmarshalResponse r with
      | Except.error e => { res := {}, err := some (LIBNAME ++ ":error: " ++ e), trace := h1 }
      | Except.ok response =>
        match responseError js response with
        | some e => { res := {}, err := some e, trace := h1 }
        | none =>
          match js.unmarshalString response.Result with
          | Except.error e =>
            { res := {}, err := some (LIBNAME ++ ":error: " ++ e), trace := h1 }
          | Except.ok tmpAmountStr =>
            match rt.parseFloat tmpAmountStr with
            | Except.error e =>
              { res := {}, err := some (LIBNAME ++ ":error: " ++ e), trace := h1 }
            | Except.ok exchangeAmount =>
              { res := { EstimatedAmount := exchangeAmount }, err := none, trace := h1 }

/-- The method `QueryRates`. -/
def Changelly.QueryRates {α : Type} (_c : Changelly) (_vars : α) (h : Trace) :
    Ret (List lightningswap.QueryRate) :=
  { res := [], err := some (LIBNAME ++ ":error: not available for this exchange"), trace := h }

/-- The method `QueryActiveCurrencies`. -/
def Changelly.QueryActiveCurrencies {α : Type} (_c : Changelly) (_vars : α) (h : Trace) :
    Ret (List lightningswap.ActiveCurr) :=
  { res := [], err := some (LIBNAME ++ ":error: not available for this exchange"), trace := h }

/-- The method `QueryLimits`. -/
def Changelly.QueryLimits {ρ : Type} (rt : Runtime) (js : Json ρ) (c : Changelly)
    (fromCurr toCurr : String) (h : Trace) : Ret lightningswap.QueryLimits :=
  let nonce := formatInt (rt.now h)
  let params := [("from", ToLower rt.unicodeLower fromCurr),
    ("to", ToLower rt.unicodeLower toCurr)]
  let tmpPayload : jsonRequest :=
    { ID := "queryLimits" ++ nonce, JSONRPC := "2.0", Method := "getMinAmount",
      Params := params }
  match js.marshal tmpPayload with
  | Except.error e => { res := {}, err := some (LIBNAME ++ ":error: " ++ e), trace := h }
  | Except.ok payload =>
    let req : Request :=
      { base := API_BASE, method := "POST", path := "", body := payload, signed := true }
    let h1 := h ++ [Effect.call req]
    match rt.Do c.client h req with
    | Except.error e => { res := {}, err := some (LIBNAME ++ ":error: " ++ e), trace := h1 }
    | Except.ok r =>
      match js.unmarshalResponse r with
      | Except.error e => { res := {}, err := some (LIBNAME ++ ":error: " ++ e), trace := h1 }
      | Except.ok response =>
        match responseError js response with
        | some e => { res := {}, err := some e, trace := h1 }
        | none =>
          match js.unmarshalString response.Result with
          | Except.error e =>
            { res := {}, err := some (LIBNAME ++ ":error: " ++ e), trace := h1 }
          | Except.ok tmpMinAmountStr =>
            match rt.parseFloat tmpMinAmountStr with
            | Except.error e =>
              { res := {}, err := some (LIBNAME ++ ":error: " ++ e), trace := h1 }
            | Except.ok minAmount =>
              { res := { Min := minAmount }, err := none, trace := h1 }

/-- The method `GetExchangeRateInfo`: limits, one second of sleep, estimate, rate. -/
def Changelly.GetExchangeRateInfo {ρ : Type} (rt : Runtime) (js : Json ρ) (c : Changelly)
    (vars : lightningswap.ExchangeRateRequest) (h : Trace) :
    Ret lightningswap.ExchangeRateInfo :=
  let limits := c.QueryLimits rt js vars.From vars.To h
  match limits.err with
  | some e => { res := {}, err := some e, trace := limits.trace }
  | none =>
    let h1 := limits.trace ++ [Effect.sleep (timeSecond * 1)]
    let estimate := c.EstimateAmount rt js vars h1
    match estimate.err with
    | some e => { res := {}, err := some e, trace := estimate.trace }
    | none =>
      let rate := Float64.div vars.Amount estimate.res.EstimatedAmount
      { res := { ExchangeRate := rate, Min := limits.res.Min, Max := limits.res.Max,
                 EstimatedAmount := estimate.res.EstimatedAmount },
        err := none, trace := estimate.trace }

/-- The method `CreateOrder`. The error set when the API key is blank is not returned:
the next statement, `r, err := c.client.Do(...)`, assigns `err` again. -/
def Changelly.CreateOrder {ρ : Type} (rt : Runtime) (js : Json ρ) (c : Changelly)
    (orderInfo : lightningswap.CreateOrder) (h : Trace) : Ret lightningswap.CreateResultInfo :=
  let nonce := formatInt (rt.now h)
  let amountStr := rt.formatFloat8 orderInfo.InvoicedAmount
  let params := [("from", ToLower rt.unicodeLower orderInfo.FromCurrency),
    ("to", ToLower rt.unicodeLower orderInfo.ToCurrency),
    ("address", orderInfo.Destination),
    ("extraId", orderInfo.ExtraID),
    ("amount", amountStr),
    ("refundAddress", orderInfo.RefundAddress),
    ("refundExtraId", orderInfo.RefundExtraID)]
  let tmpPayload : jsonRequest :=
    { ID := "createOrder" ++ nonce, JSONRPC := "2.0", Method := "createTransaction",
      Params := params }
  if Float64.eq orderInfo.InvoicedAmount Float64.zero then
    { res := {}, err := some (LIBNAME ++ ":error:createorder invoiced amount is 0"), trace := h }
  else
    match js.marshal tmpPayload with
    | Except.error e => { res := {}, err := some (LIBNAME ++ ":error: " ++ e), trace := h }
    | Except.ok payload =>
      let _err : Option String :=
        if c.conf.ApiKey = "" then some (LIBNAME ++ ":error: APIKEY is blank") else none
      let req : Request :=
        { base := API_BASE, method := "POST", path := "", body := payload, signed := true }
      let h1 := h ++ [Effect.call req]
      match rt.Do c.client h req with
      | Except.error e => { res := {}, err := some (LIBNAME ++ ":error: " ++ e), trace := h1 }
      | Except.ok r =>
        match js.unmarshalResponse r with
        | Except.error e =>
          { res := {}, err := some (LIBNAME ++ ":error: " ++ e), trace := h1 }
        | Except.ok response =>
          match responseError js response with
          | some e => { res := {}, err := some e, trace := h1 }
          | none =>
            match js.unmarshalCreateResult response.Result with
            | Except.error e =>
              { res := {}, err := some (LIBNAME ++ ":error: " ++ e), trace := h1 }
            | Except.ok tmp =>
              { res :=
                  { UUID := tmp.UUID, Destination := tmp.PayoutAddress,
                    FromCurrency := tmp.CurrencyFrom, ToCurrency := tmp.CurrencyTo,
                    DepositAddress := tmp.PayinAddress, ChargedFee := tmp.ChangellyFee,
                    ExtraID := tmp.PayinExtraID, PayoutExtraID := tmp.PayoutExtraID },
                err := none, trace := h1 }

/-- The method `UpdateOrder`. -/
def Changelly.UpdateOrder {α : Type} (_c : Changelly) (_vars : α) (h : Trace) :
    Ret lightningswap.UpdateOrderResultInfo :=
  { res := {}, err := some (LIBNAME ++ ":error:update not available for this exchange"),
    trace := h }

/-- The method `CancelOrder`. -/
def Changelly.CancelOrder (_c : Changelly) (_oId : String) (h : Trace) : Ret String :=
  { res := "", err := some (LIBNAME ++ ":error:cancel not available for this exchange"),
    trace := h }

/-- The loop `for _, v := range tmp { if v.UUID == orderID { finalOrderInfo = v } }` of
`OrderInfo`, started from the zero value: the last record with the given id, if any. -/
def selectOrder {ρ : Type} [GoZero ρ] (tmp : List (OrderInfoResult ρ)) (orderID : String) :
    OrderInfoResult ρ :=
  tmp.foldl (fun finalOrderInfo v => if v.UUID = orderID then v else finalOrderInfo)
    OrderInfoResult.zero

/-- The method `OrderInfo`. As in `CreateOrder` the error of a blank API key is
overwritten by the transport call that follows it. -/
def Changelly.OrderInfo {ρ : Type} [GoZero ρ] (rt : Runtime) (js : Json ρ) (c : Changelly)
    (orderID : String) (h : Trace) : Ret lightningswap.OrderInfoResult :=
  let nonce := formatInt (rt.now h)
  let params := [("id", orderID)]
  let tmpPayload : jsonRequest :=
    { ID := "orderInfo" ++ nonce, JSONRPC := "2.0", Method := "getTransactions",
      Params := params }
  match js.marshal tmpPayload with
  | Except.error e => { res := {}, err := some (LIBNAME ++ ":error: " ++ e), trace := h }
  | Except.ok payload =>
    let _err : Option String :=
      if c.conf.ApiKey = "" then some (LIBNAME ++ ":error: APIKEY is blank") else none
    let req : Request :=
      { base := API_BASE, method := "POST", path := "", body := payload, signed := true }
    let h1 := h ++ [Effect.call req]
    match rt.Do c.client h req with
    | Except.error e => { res := {}, err := some (LIBNAME ++ ":error: " ++ e), trace := h1 }
    | Except.ok r =>
      match js.unmarshalResponse r with
      | Except.error e => { res := {}, err := some (LIBNAME ++ ":error: " ++ e), trace := h1 }
      | Except.ok response =>
        match responseError js response with
        | some e => { res := {}, err := some e, trace := h1 }
        | none =>
          match js.unmarshalOrders response.Result with
          | Except.error e =>
            { res := {}, err := some (LIBNAME ++ ":error: " ++ e), trace := h1 }
          | Except.ok tmp =>
            let finalOrderInfo := selectOrder tmp orderID
            if finalOrderInfo.eqZero then
              { res := {}, err := some (LIBNAME ++ ":error: order info could not be found"),
                trace := h1 }
            else
              { res :=
                  { ReceiveAmount := finalOrderInfo.AmountTo,
                    Confirmations := finalOrderInfo.PayinConfirmations,
                    TxID := finalOrderInfo.PayoutHash,
                    Status := finalOrderInfo.Status,
                    InternalStatus := GetLocalStatus rt.unicodeLower finalOrderInfo.Status },
                err := none, trace := h1 }

end changelly

/-! ## Package `changenow` -/

namespace changenow

open lightningswap (Status)

/-- The constant `API_BASE` of `changenow.go`. -/
def API_BASE : String := "https://changenow.io/api/v1/"

/-- The constant `LIBNAME` of `changenow.go`. -/
def LIBNAME : String := "changenow"

/-- The decoded payload `EstimateAmount` (declared outside the sources). -/
structure EstimateAmount where
  EstimatedAmount : Float64 := Float64.zero
  NetworkFee : Float64 := Float64.zero
  ServiceCommission : Float64 := Float64.zero
  TransactionSpeedForecast : String := ""
  WarningMessage : String := ""
deriving DecidableEq, Repr

/-- The decoded payload `ActiveCurr`. -/
structure ActiveCurr where
  IsFiat : Bool := false
  Ticker : String := ""
deriving DecidableEq, Repr

/-- The decoded payload `QueryLimits`. -/
structure QueryLimits where
  Min : Float64 := Float64.zero
deriving DecidableEq, Repr

/-- The request body `CreateOrder`. -/
structure CreateOrder where
  FromCurrency : String := ""
  ToCurrency : String := ""
  ToCurrencyAddress : String := ""
  InvoicedAmount : Float64 := Float64.zero
  ExtraID : String := ""
deriving DecidableEq, Repr

/-- The decoded payload `CreateResult`. -/
structure CreateResult where
  UUID : String := ""
  DestinationAddress : String := ""
  PayinExtraID : String := ""
  FromCurrency : String := ""
  ToCurrency : String := ""
  DepositAddress : String := ""
deriving DecidableEq, Repr

/-- The decoded payload `OrderInfoResult`. -/
structure OrderInfoResult where
  UpdatedAt : String := ""
  ExpectedAmountReceive : Float64 := Float64.zero
  AmountReceive : Float64 := Float64.zero
  PayoutHash : String := ""
  Status : String := ""
deriving DecidableEq, Repr

/-- The functions of `encoding/json` on the payloads of this package. -/
structure Json where
  marshalCreateOrder : CreateOrder → Except String String
  unmarshalEstimate : String → Except String EstimateAmount
  unmarshalActive : String → Except String (List ActiveCurr)
  unmarshalLimits : String → Except String QueryLimits
  unmarshalCreateResult : String → Except String CreateResult
  unmarshalOrderInfo : String → Except String OrderInfoResult

/-- The struct `ChangeNow`. -/
structure ChangeNow where
  conf : lightningswap.ExchangeConfig
  client : lightningswap.Client
deriving DecidableEq, Repr

/-- The constructor `New` of `changenow.go`. -/
def New (conf : lightningswap.ExchangeConfig) : Except String ChangeNow :=
  if conf.ApiKey = "" then
    Except.error "APIKEY is blank"
  else
    let client := lightningswap.NewClient LIBNAME conf
    Except.ok { client := client, conf := conf }

/-- The function `GetLocalStatus` of `changenow.go`. -/
def GetLocalStatus (tbl : Char → Char) (status : String) : Status :=
  let status := ToLower tbl status
  match status with
  | "finished" => Status.OrderStatusCompleted
  | "waiting" => Status.OrderStatusWaitingForDeposit
  | "confirming" => Status.OrderStatusDepositReceived
  | "refunded" => Status.OrderStatusRefunded
  | "expired" => Status.OrderStatusExpired
  | "new" => Status.OrderStatusNew
  | "exchanging" => Status.OrderStatusExchanging
  | "sending" => Status.OrderStatusSending
  | "failed" => Status.OrderStatusFailed
  | _ => Status.OrderStatusUnknown

/-- The method `EstimateAmount`. -/
def ChangeNow.EstimateAmount (rt : Runtime) (js : Json) (c : ChangeNow)
    (vars : lightningswap.ExchangeRateRequest) (h : Trace) : Ret lightningswap.EstimateAmount :=
  let amountStr := rt.formatFloat8 vars.Amount
  let req : Request :=
    { base := API_BASE, method := "GET",
      path := "exchange-amount/" ++ amountStr ++ "/" ++ vars.From ++ "_" ++ vars.To
        ++ "?api_key=" ++ c.conf.ApiKey,
      body := "", signed := false }
  let h1 := h ++ [Effect.call req]
  match rt.Do c.client h req with
  | Except.error e => { res := {}, err := some (LIBNAME ++ ":error: " ++ e), trace := h1 }
  | Except.ok r =>
    match js.unmarshalEstimate r with
    | Except.error e => { res := {}, err := some (LIBNAME ++ ":error: " ++ e), trace := h1 }
    | Except.ok tmpRes =>
      { res :=
          { EstimatedAmount := tmpRes.EstimatedAmount,
            NetworkFee := tmpRes.NetworkFee,
            ServiceCommission := tmpRes.ServiceCommission,
            TransactionSpeedForecast := tmpRes.TransactionSpeedForecast,
            WarningMessage := tmpRes.WarningMessage },
        err := none, trace := h1 }

/-- The method `QueryRates`. -/
def ChangeNow.QueryRates {α : Type} (_c : ChangeNow) (_vars : α) (h : Trace) :
    Ret (List lightningswap.QueryRate) :=
  { res := [], err := some (LIBNAME ++ ":error: not available for this exchange"), trace := h }

/-- The method `QueryActiveCurrencies`. -/
def ChangeNow.QueryActiveCurrencies {α : Type} (rt : Runtime) (js : Json) (c : ChangeNow)
    (_vars : α) (h : Trace) : Ret (List lightningswap.ActiveCurr) :=
  let req : Request :=
    { base := API_BASE, method := "GET", path := "currencies?active=true", body := "",
      signed := false }
  let h1 := h ++ [Effect.call req]
  match rt.Do c.client h req with
  | Except.error e => { res := [], err := some (LIBNAME ++ ":error: " ++ e), trace := h1 }
  | Except.ok r =>
    match js.unmarshalActive r with
    | Except.error e => { res := [], err := some (LIBNAME ++ ":error: " ++ e), trace := h1 }
    | Except.ok tmpArr =>
      { res := tmpArr.map (fun v =>
          let currType := if v.IsFiat then "FIAT" else "CRYPTO"
          { CurrencyType := currType, Name := v.Ticker }),
        err := none, trace := h1 }

/-- The method `QueryLimits`. -/
def ChangeNow.QueryLimits (rt : Runtime) (js : Json) (c : ChangeNow)
    (fromCurr toCurr : String) (h : Trace) : Ret lightningswap.QueryLimits :=
  let req : Request :=
    { base := API_BASE, method := "GET", path := "min-amount/" ++ fromCurr ++ "_" ++ toCurr,
      body := "", signed := false }
  let h1 := h ++ [Effect.call req]
  match rt.Do c.client h req with
  | Except.error e => { res := {}, err := some (LIBNAME ++ ":error: " ++ e), trace := h1 }
  | Except.ok r =>
    match js.unmarshalLimits r with
    | Except.error e => { res := {}, err := some (LIBNAME ++ ":error: " ++ e), trace := h1 }
    | Except.ok tmp => { res := { Min := tmp.Min }, err := none, trace := h1 }

/-- The method `GetExchangeRateInfo`: limits, one second of sleep, estimate, rate. -/
def ChangeNow.GetExchangeRateInfo (rt : Runtime) (js : Json) (c : ChangeNow)
    (vars : lightningswap.ExchangeRateRequest) (h : Trace) :
    Ret lightningswap.ExchangeRateInfo :=
  let limits := c.QueryLimits rt js vars.From vars.To h
  match limits.err with
  | some e => { res := {}, err := some (LIBNAME ++ ":error: " ++ e), trace := limits.trace }
  | none =>
    let h1 := limits.trace ++ [Effect.sleep (timeSecond * 1)]
    let estimate := c.EstimateAmount rt js vars h1
    match estimate.err with
    | some e => { res := {}, err := some (LIBNAME ++ ":error: " ++ e), trace := estimate.trace }
    | none =>
      let rate := Float64.div vars.Amount estimate.res.EstimatedAmount
      { res := { ExchangeRate := rate, Min := limits.res.Min, Max := limits.res.Max,
                 EstimatedAmount := estimate.res.EstimatedAmount },
        err := none, trace := estimate.trace }

/-- The method `CreateOrder`. -/
def ChangeNow.CreateOrder (rt : Runtime) (js : Json) (c : ChangeNow)
    (orderInfo : lightningswap.CreateOrder) (h : Trace) : Ret lightningswap.CreateResultInfo :=
  let tmpOrderInfo : changenow.CreateOrder :=
    { FromCurrency := orderInfo.FromCurrency,
      ToCurrency := orderInfo.ToCurrency,
      ToCurrencyAddress := orderInfo.Destination,
      InvoicedAmount := orderInfo.InvoicedAmount,
      ExtraID := orderInfo.ExtraID }
  if Float64.eq tmpOrderInfo.InvoicedAmount Float64.zero then
    { res := {}, err := some (LIBNAME ++ ":error:createorder invoiced amount is 0"), trace := h }
  else
    match js.marshalCreateOrder tmpOrderInfo with
    | Except.error e => { res := {}, err := some (LIBNAME ++ ":error: " ++ e), trace := h }
    | Except.ok payload =>
      let req : Request :=
        { base := API_BASE, method := "POST", path := "transactions/" ++ c.conf.ApiKey,
          body := payload, signed := false }
      let h1 := h ++ [Effect.call req]
      match rt.Do c.client h req with
      | Except.error e => { res := {}, err := some (LIBNAME ++ ":error: " ++ e), trace := h1 }
      | Except.ok r =>
        -- the first decoding, into `tempItem`, is overwritten by the second
        match js.unmarshalCreateResult r with
        | Except.error e =>
          { res := {}, err := some (LIBNAME ++ ":error: " ++ e), trace := h1 }
        | Except.ok tmp =>
          { res :=
              { UUID := tmp.UUID, Destination := tmp.DestinationAddress,
                ExtraID := tmp.PayinExtraID, FromCurrency := tmp.FromCurrency,
                ToCurrency := tmp.ToCurrency, DepositAddress := tmp.DepositAddress },
            err := none, trace := h1 }

/-- The method `UpdateOrder`. -/
def ChangeNow.UpdateOrder {α : Type} (_c : ChangeNow) (_vars : α) (h : Trace) :
    Ret lightningswap.UpdateOrderResultInfo :=
  { res := {}, err := some (LIBNAME ++ ":error:update not available for this exchange"),
    trace := h }

/-- The method `CancelOrder`. -/
def ChangeNow.CancelOrder (_c : ChangeNow) (_oId : String) (h : Trace) : Ret String :=
  { res := "", err := some (LIBNAME ++ ":error:cancel not available for this exchange"),
    trace := h }

/-- The method `OrderInfo`. -/
def ChangeNow.OrderInfo (rt : Runtime) (js : Json) (c : ChangeNow) (orderID : String)
    (h : Trace) : Ret lightningswap.OrderInfoResult :=
  let req : Request :=
    { base := API_BASE, method := "GET",
      path := "transactions/" ++ orderID ++ "/" ++ c.conf.ApiKey, body := "", signed := false }
  let h1 := h ++ [Effect.call req]
  match rt.Do c.client h req with
  | Except.error e => { res := {}, err := some (LIBNAME ++ ":error: " ++ e), trace := h1 }
  | Except.ok r =>
    match js.unmarshalOrderInfo r with
    | Except.error e => { res := {}, err := some (LIBNAME ++ ":error: " ++ e), trace := h1 }
    | Except.ok tmp =>
      let amountRecv :=
        if tmp.Status ≠ "finished" then tmp.ExpectedAmountReceive else tmp.AmountReceive
      { res :=
          { LastUpdate := tmp.UpdatedAt,
            ReceiveAmount := amountRecv,
            TxID := tmp.PayoutHash,
            Status := tmp.Status,
            InternalStatus := GetLocalStatus rt.unicodeLower tmp.Status },
        err := none, trace := h1 }

end changenow

/-! ## Package `fixedfloat` -/

namespace fixedfloat

/-- The constant `API_BASE` of `fixedfloat.go`. -/
def API_BASE : String := "https://fixedfloat.com/api/v1/"

/-- The constant `LIBNAME` of `fixedfloat.go`. -/
def LIBNAME : String := "fixedfloat"

/-- The struct `FixedFloat`. -/
structure FixedFloat where
  conf : lightningswap.ExchangeConfig
  client : lightningswap.Client
deriving DecidableEq, Repr

/-- The constructor `New` of `fixedfloat.go`; the signing hook it installs acts inside the
transport. -/
def New (conf : lightningswap.ExchangeConfig) : Except String FixedFloat :=
  if conf.ApiKey = "" ∨ conf.ApiSecret = "" then
    Except.error (LIBNAME ++ ":error: api kay and api secret must be provided")
  else
    let client := lightningswap.NewClient LIBNAME conf
    Except.ok { client := client, conf := conf }

/-- The method `QueryRates`. -/
def FixedFloat.QueryRates {α : Type} (_c : FixedFloat) (_vars : α) (h : Trace) :
    Ret (List lightningswap.QueryRate) :=
  { res := [], err := some "not supported", trace := h }

/-- The method `QueryActiveCurrencies`, a bare `return`. -/
def FixedFloat.QueryActiveCurrencies {α : Type} (_c : FixedFloat) (_vars : α) (h : Trace) :
    Ret (List lightningswap.ActiveCurr) :=
  { res := [], err := none, trace := h }

/-- The method `QueryLimits`, a bare `return`. -/
def FixedFloat.QueryLimits (_c : FixedFloat) (_fromCurr _toCurr : String) (h : Trace) :
    Ret lightningswap.QueryLimits :=
  { res := {}, err := none, trace := h }

/-- The method `CreateOrder`, a bare `return`. -/
def FixedFloat.CreateOrder (_c : FixedFloat) (_vars : lightningswap.CreateOrder) (h : Trace) :
    Ret lightningswap.CreateResultInfo :=
  { res := {}, err := none, trace := h }

/-- The method `UpdateOrder`, a bare `return`. -/
def FixedFloat.UpdateOrder {α : Type} (_c : FixedFloat) (_vars : α) (h : Trace) :
    Ret lightningswap.UpdateOrderResultInfo :=
  { res := {}, err := none, trace := h }

/-- The method `CancelOrder`, a bare `return`. -/
def FixedFloat.CancelOrder (_c : FixedFloat) (_orderID : String) (h : Trace) : Ret String :=
  { res := "", err := none, trace := h }

/-- The method `OrderInfo`, a bare `return`. -/
def FixedFloat.OrderInfo (_c : FixedFloat) (_orderID : String) (h : Trace) :
    Ret lightningswap.OrderInfoResult :=
  { res := {}, err := none, trace := h }

/-- The method `EstimateAmount`, a bare `return`. -/
def FixedFloat.EstimateAmount {α : Type} (_c : FixedFloat) (_vars : α) (h : Trace) :
    Ret lightningswap.EstimateAmount :=
  { res := {}, err := none, trace := h }

/-- The function `GetLocalStatus` of `fixedfloat.go`, which returns a plain `int`. -/
def GetLocalStatus (tbl : Char → Char) (status : String) : Int :=
  let status := ToLower tbl status
  match status with
  | "wait" => 2
  | "confirmation" => 3
  | "confirmed" => 4
  | "exchanging" => 9
  | "sending" => 10
  | "sending_confirmation" => 10
  | "success" => 1
  | "overdue" => 7
  | "error" => 11
  | "refunded" => 5
  | _ => 0

end fixedfloat

/-! ## Package `stealthex` -/

set_option linter.dupNamespace false

namespace stealthex

/-- The constant `API_BASE` of `stealthex.go`. -/
def API_BASE : String := "https://api.stealthex.io/api/v2/"

/-- The constant `LIBNAME` of `stealthex.go`. -/
def LIBNAME : String := "stealthex"

/-- The struct `Estimate` of `structs.go`. -/
structure Estimate where
  EstimatedAmount : Float64 := Float64.zero
deriving DecidableEq, Repr

/-- The struct `Range` of `structs.go`. -/
structure Range where
  MinAmount : Float64 := Float64.zero
  MaxAmount : Float64 := Float64.zero
deriving DecidableEq, Repr

/-- The function `parseResponseData`, that is `json.Unmarshal`, on the two payloads of the
rate protocol: the value the target holds afterwards (the zero value, or what was decoded
before a failure) and the error. -/
structure Json where
  parseEstimate : String → Estimate × Option String
  parseRange : String → Range × Option String

/-- The struct `stealthex`. -/
structure stealthex where
  client : lightningswap.Client
  conf : lightningswap.ExchangeConfig
deriving DecidableEq, Repr

/-- The constructor `New` of `stealthex.go`. -/
def New (conf : lightningswap.ExchangeConfig) : Except String stealthex :=
  if conf.ApiKey = "" then
    Except.error (LIBNAME ++ ":error: APIKEY is blank")
  else
    let client := lightningswap.NewClient LIBNAME conf
    Except.ok { client := client, conf := conf }

/-- The method `estimateAmount`. -/
def stealthex.estimateAmount (rt : Runtime) (js : Json) (s : stealthex)
    (vars : lightningswap.ExchangeRateRequest) (h : Trace) :
    Ret lightningswap.ExchangeRateInfo :=
  let req : Request :=
    { base := API_BASE, method := "GET",
      path := "estimate/" ++ ToLower rt.unicodeLower vars.From ++ "/"
        ++ ToLower rt.unicodeLower vars.To ++ "?api_key=" ++ s.conf.ApiKey
        ++ "&fixed=true&amount=" ++ rt.formatFloat8 vars.Amount,
      body := "", signed := false }
  let h1 := h ++ [Effect.call req]
  match rt.Do s.client h req with
  | Except.error e => { res := {}, err := some e, trace := h1 }
  | Except.ok r =>
    match js.parseEstimate r with
    | (_, some e) => { res := {}, err := some e, trace := h1 }
    | (estimate, none) =>
      { res := { EstimatedAmount := estimate.EstimatedAmount,
                 ExchangeRate := Float64.div vars.Amount estimate.EstimatedAmount },
        err := none, trace := h1 }

/-- The method `getRange`, whose result is a pointer: `nil` when the transport fails, the
decoded (possibly partly decoded) range otherwise, also next to a decoding error. -/
def stealthex.getRange (rt : Runtime) (js : Json) (s : stealthex)
    (vars : lightningswap.ExchangeRateRequest) (h : Trace) : Ret (Option Range) :=
  let req : Request :=
    { base := API_BASE, method := "GET",
      path := "range/" ++ ToLower rt.unicodeLower vars.From ++ "/"
        ++ ToLower rt.unicodeLower vars.To ++ "?api_key=" ++ s.conf.ApiKey ++ "&fixed=true",
      body := "", signed := false }
  let h1 := h ++ [Effect.call req]
  match rt.Do s.client h req with
  | Except.error e => { res := none, err := some e, trace := h1 }
  | Except.ok body =>
    let r := js.parseRange body
    { res := some r.1, err := r.2, trace := h1 }

/-- How a call ends: it returns, or the goroutine panics. -/
inductive Outcome (α : Type) where
  | returned (r : Ret α)
  | panicked (msg : String) (trace : Trace)
deriving DecidableEq, Repr

/-- The method `GetExchangeRateInfo`. The range is read when `getRange` FAILED
(`if err != nil`): the dereference of its `nil` result panics, and the call returns
`res, nil` in every other case. -/
def stealthex.GetExchangeRateInfo (rt : Runtime) (js : Json) (s : stealthex)
    (vars : lightningswap.ExchangeRateRequest) (h : Trace) :
    Outcome lightningswap.ExchangeRateInfo :=
  let est := s.estimateAmount rt js vars h
  match est.err with
  | some e => Outcome.returned { res := est.res, err := some e, trace := est.trace }
  | none =>
    let r := s.getRange rt js vars est.trace
    match r.err with
    | some _ =>
      match r.res with
      | none =>
        Outcome.panicked "runtime error: invalid memory address or nil pointer dereference" r.trace
      | some rg =>
        Outcome.returned
          { res := { est.res with Min := rg.MinAmount, Max := rg.MaxAmount }, err := none,
            trace := r.trace }
    | none => Outcome.returned { res := est.res, err := none, trace := r.trace }

/-- The method `QueryLimits`. -/
def stealthex.QueryLimits (_s : stealthex) (_fromCurr _toCurr : String) (h : Trace) :
    Ret lightningswap.QueryLimits :=
  { res := {}, err := some "not supported", trace := h }

/-- The method `UpdateOrder`, a bare `return`. -/
def stealthex.UpdateOrder {α : Type} (_s : stealthex) (_vars : α) (h : Trace) :
    Ret lightningswap.UpdateOrderResultInfo :=
  { res := {}, err := none, trace := h }

/-- The method `CancelOrder`, a bare `return`. -/
def stealthex.CancelOrder (_s : stealthex) (_orderID : String) (h : Trace) : Ret String :=
  { res := "", err := none, trace := h }

/-- The method `EstimateAmount`, a bare `return`. -/
def stealthex.EstimateAmount {α : Type} (_s : stealthex) (_vars : α) (h : Trace) :
    Ret lightningswap.EstimateAmount :=
  { res := {}, err := none, trace := h }

end stealthex

/-! ## Statement helpers -/

/-- The nine native status tokens of the changelly and changenow tables. -/
def statusTokens : List String :=
  ["finished", "waiting", "confirming", "refunded", "expired", "new", "exchanging",
   "sending", "failed"]


namespace changelly

/-- The result `OrderInfo` builds from the selected record `v`. -/
def orderInfoOf {ρ : Type} (tbl : Char → Char) (v : OrderInfoResult ρ) :
    lightningswap.OrderInfoResult :=
  { ReceiveAmount := v.AmountTo,
    Confirmations := v.PayinConfirmations,
    TxID := v.PayoutHash,
    Status := v.Status,
    InternalStatus := GetLocalStatus tbl v.Status }

/-- The transport answers the `getTransactions` call of `OrderInfo orderID` made after the
history `h`, the envelope decodes without an upstream error, and its result decodes to the
list of records `L`. -/
def ordersDecoded {ρ : Type} (rt : Runtime) (js : Json ρ) (c : Changelly) (orderID : String)
    (h : Trace) (L : List (OrderInfoResult ρ)) : Prop :=
  ∃ payload r response,
    js.marshal { ID := "orderInfo" ++ formatInt (rt.now h), JSONRPC := "2.0",
                 Method := "getTransactions", Params := [("id", orderID)] } = Except.ok payload
    ∧ rt.Do c.client h { base := API_BASE, method := "POST", path := "", body := payload,
                         signed := true } = Except.ok r
    ∧ js.unmarshalResponse r = Except.ok response
    ∧ responseError js response = none
    ∧ js.unmarshalOrders response.Result = Except.ok L

end changelly

/-! ## Test doubles

A transport and decoders with fixed answers, for the scenarios of the specification. -/

namespace Mock

/-- The constant `0.01`. -/
def f0_01 : Float64 := Float64.lit 1 100

/-- The constant `2.5`. -/
def f2_5 : Float64 := Float64.lit 25 10

/-- The constant `1.0`. -/
def f1 : Float64 := Float64.lit 1 1

/-- The constant `0.4`. -/
def f0_4 : Float64 := Float64.lit 4 10

/-- A parser of the two numerals the mocked backend sends. -/
def parseFloat (s : String) : Except String Float64 :=
  if s = "0.01" then Except.ok f0_01
  else if s = "2.5" then Except.ok f2_5
  else Except.error "invalid syntax"

/-- A transport that answers the limits calls with `0.01` and every other call with
`2.5`; the Unicode table is the identity. -/
def runtime : Runtime :=
  { Do := fun _ _ req =>
      if req.body = "getMinAmount" ∨ req.path = "min-amount/btc_ltc" then Except.ok "0.01"
      else Except.ok "2.5",
    now := fun _ => 1700000000,
    unicodeLower := id,
    formatFloat8 := fun _ => "1.00000000",
    parseFloat := parseFloat }

/-- A transport whose first call succeeds and whose later calls fail. -/
def runtimeSecondCallFails : Runtime :=
  { runtime with
    Do := fun _ h _ => if h = [] then Except.ok "2.5" else Except.error "connection reset" }

/-- The two records of the order scenario: `xyz`, and `abc123` with status `finished`. -/
def orders : List (changelly.OrderInfoResult Unit) :=
  [ { UUID := "xyz", AmountTo := Float64.zero, PayinConfirmations := "", PayoutHash := "",
      Status := "", other := () },
    { UUID := "abc123", AmountTo := f2_5, PayinConfirmations := "3", PayoutHash := "0xfeed",
      Status := "finished", other := () } ]

/-- Decoders for changelly: the request is marshalled to its method name, the envelope
carries the raw bytes and no error, the order list is `orders`. -/
def changellyJson : changelly.Json Unit :=
  { marshal := fun p => Except.ok p.Method,
    unmarshalResponse := fun r => Except.ok { Result := r, Error := none },
    unmarshalError := fun r => Except.ok { Message := r },
    unmarshalString := fun r => Except.ok r,
    unmarshalCreateResult := fun _ =>
      Except.ok { UUID := "abc123", PayinAddress := "bc1qdeposit", CurrencyFrom := "btc",
                  CurrencyTo := "ltc" },
    unmarshalOrders := fun _ => Except.ok orders }

/-- Decoders for changelly whose order list is one all-zero record (the JSON `[{}]`). -/
def changellyJsonZeroRecord : changelly.Json Unit :=
  { changellyJson with unmarshalOrders := fun _ => Except.ok [changelly.OrderInfoResult.zero] }

/-- Decoders for changenow: the payloads are the numerals `parseFloat` reads. -/
def changenowJson : changenow.Json :=
  { marshalCreateOrder := fun _ => Except.ok "order",
    unmarshalEstimate := fun r =>
      match parseFloat r with
      | Except.ok x => Except.ok { EstimatedAmount := x }
      | Except.error e => Except.error e,
    unmarshalActive := fun _ => Except.ok [],
    unmarshalLimits := fun r =>
      match parseFloat r with
      | Except.ok x => Except.ok { Min := x }
      | Except.error e => Except.error e,
    unmarshalCreateResult := fun _ => Except.ok { UUID := "abc123" },
    unmarshalOrderInfo := fun _ => Except.ok { Status := "finished" } }

/-- Decoders for stealthex that read the estimate `2.5` and the range `0.01 .. 2.5`. -/
def stealthexJson : stealthex.Json :=
  { parseEstimate := fun _ => ({ EstimatedAmount := f2_5 }, none),
    parseRange := fun _ => ({ MinAmount := f0_01, MaxAmount := f2_5 }, none) }

/-- Decoders for stealthex for which the range payload does not decode. -/
def stealthexJsonBadRange : stealthex.Json :=
  { stealthexJson with parseRange := fun _ => ({}, some "unexpected end of JSON input") }

/-- A configuration with a key and a secret. -/
def conf : lightningswap.ExchangeConfig := { ApiKey := "key", ApiSecret := "secret" }

/-- A configuration with a blank key. -/
def blankConf : lightningswap.ExchangeConfig := { ApiKey := "", ApiSecret := "secret" }

/-- The changelly adapter `New conf` returns. -/
def changellyClient : changelly.Changelly :=
  { client := lightningswap.NewClient changelly.LIBNAME conf, conf := conf }

/-- The changelly adapter `New blankConf` returns. -/
def changellyBlankClient : changelly.Changelly :=
  { client := lightningswap.NewClient changelly.LIBNAME blankConf, conf := blankConf }

/-- The changenow adapter `New conf` returns. -/
def changenowClient : changenow.ChangeNow :=
  { client := lightningswap.NewClient changenow.LIBNAME conf, conf := conf }

/-- The fixedfloat adapter `New conf` returns. -/
def fixedfloatClient : fixedfloat.FixedFloat :=
  { client := lightningswap.NewClient fixedfloat.LIBNAME conf, conf := conf }

/-- The stealthex adapter `New conf` returns. -/
def stealthexClient : stealthex.stealthex :=
  { client := lightningswap.NewClient stealthex.LIBNAME conf, conf := conf }

/-- The rate request of the round-trip scenario. -/
def rateRequest : lightningswap.ExchangeRateRequest :=
  { From := "btc", To := "ltc", Amount := f1 }

/-- An order request with amount `1.0`. -/
def order : lightningswap.CreateOrder :=
  { FromCurrency := "btc", ToCurrency := "ltc", Destination := "ltc1qdest",
    InvoicedAmount := f1 }

/-- An order request with amount `-0.0`. -/
def zeroOrder : lightningswap.CreateOrder :=
  { order with InvoicedAmount := Float64.signedZero true }

end Mock

/-! ## Requests of the rate protocol -/

namespace changelly

/-- The envelope `QueryLimits` marshals after the history `h`. -/
def limitsPayload (rt : Runtime) (fromCurr toCurr : String) (h : Trace) : jsonRequest :=
  { ID := "queryLimits" ++ formatInt (rt.now h), JSONRPC := "2.0", Method := "getMinAmount",
    Params := [("from", ToLower rt.unicodeLower fromCurr),
      ("to", ToLower rt.unicodeLower toCurr)] }

/-- The envelope `EstimateAmount` marshals after the history `h`. -/
def estimatePayload (rt : Runtime) (vars : lightningswap.ExchangeRateRequest) (h : Trace) :
    jsonRequest :=
  { ID := "estimateAmount" ++ formatInt (rt.now h), JSONRPC := "2.0",
    Method := "getExchangeAmount",
    Params := [("from", ToLower rt.unicodeLower vars.From),
      ("to", ToLower rt.unicodeLower vars.To), ("amount", rt.formatFloat8 vars.Amount)] }

/-- The transport call every JSON-RPC operation makes with a marshalled envelope. -/
def post (payload : String) : Request :=
  { base := API_BASE, method := "POST", path := "", body := payload, signed := true }

end changelly

namespace changenow

/-- The transport call of `QueryLimits`. -/
def limitsRequest (fromCurr toCurr : String) : Request :=
  { base := API_BASE, method := "GET", path := "min-amount/" ++ fromCurr ++ "_" ++ toCurr,
    body := "", signed := false }

/-- The transport call of `EstimateAmount`. -/
def estimateRequest (rt : Runtime) (c : ChangeNow)
    (vars : lightningswap.ExchangeRateRequest) : Request :=
  { base := API_BASE, method := "GET",
    path := "exchange-amount/" ++ rt.formatFloat8 vars.Amount ++ "/" ++ vars.From ++ "_"
      ++ vars.To ++ "?api_key=" ++ c.conf.ApiKey,
    body := "", signed := false }

end changenow

/-! ## Further test doubles -/

namespace Mock

/-- A transport that answers the limits calls with `0.01` and every other call with `0`,
which its parser reads as the float zero. -/
def runtimeZeroEstimate : Runtime :=
  { runtime with
    Do := fun _ _ req =>
      if req.body = "getMinAmount" ∨ req.path = "min-amount/btc_ltc" then Except.ok "0.01"
      else Except.ok "0",
    parseFloat := fun s => if s = "0" then Except.ok Float64.zero else parseFloat s }

/-- A transport on which every call fails. -/
def runtimeDown : Runtime :=
  { runtime with Do := fun _ _ _ => Except.error "connection refused" }

/-- Decoders for changenow that read the estimate `0`. -/
def changenowJsonZeroEstimate : changenow.Json :=
  { changenowJson with
    unmarshalEstimate := fun _ => Except.ok { EstimatedAmount := Float64.zero } }

/-- Decoders for stealthex that read the estimate `0`. -/
def stealthexJsonZeroEstimate : stealthex.Json :=
  { stealthexJson with parseEstimate := fun _ => ({ EstimatedAmount := Float64.zero }, none) }

/-- Decoders for changenow whose order has the native status `FINISHED`, the expected
amount `2.5` and the received amount `1.0`. -/
def changenowJsonUpperFinished : changenow.Json :=
  { changenowJson with
    unmarshalOrderInfo := fun _ =>
      Except.ok { Status := "FINISHED", ExpectedAmountReceive := f2_5, AmountReceive := f1 } }

/-- Decoders for changenow whose order has the native status `finished`, the expected
amount `2.5` and the received amount `1.0`. -/
def changenowJsonFinished : changenow.Json :=
  { changenowJson with
    unmarshalOrderInfo := fun _ =>
      Except.ok { Status := "finished", ExpectedAmountReceive := f2_5, AmountReceive := f1 } }

end Mock

/-! ## The order lookup, as specified -/

namespace changelly

/-- The record is the all-zero record: the id, the confirmations, the hash and the status
are empty, the amount is a zero, and so is every field `OrderInfo` does not read. -/
def OrderInfoResult.allZero {ρ : Type} [GoZero ρ] (v : OrderInfoResult ρ) : Prop :=
  v.UUID = "" ∧ Float64.eq v.AmountTo Float64.zero = true ∧ v.PayinConfirmations = ""
    ∧ v.PayoutHash = "" ∧ v.Status = "" ∧ GoZero.eqZero v.other = true

/-- The record `w` is the last record of `L` with the id `orderID`: `L` is `pre`, then
`w`, then records of other ids. -/
def IsLastMatch {ρ : Type} (L : List (OrderInfoResult ρ)) (orderID : String)
    (w : OrderInfoResult ρ) : Prop :=
  w.UUID = orderID ∧ ∃ pre post, L = pre ++ w :: post ∧ ∀ v ∈ post, v.UUID ≠ orderID

end changelly

namespace Mock

/-- Two records of the same id `abc123`: the first `waiting`, the last `FINISHED`. -/
def ordersTwice : List (changelly.OrderInfoResult Unit) :=
  [ { UUID := "abc123", AmountTo := f0_01, PayinConfirmations := "1", PayoutHash := "",
      Status := "waiting", other := () },
    { UUID := "abc123", AmountTo := f2_5, PayinConfirmations := "3", PayoutHash := "0xfeed",
      Status := "FINISHED", other := () } ]

/-- Decoders for changelly whose order list is `ordersTwice`. -/
def changellyJsonTwice : changelly.Json Unit :=
  { changellyJson with unmarshalOrders := fun _ => Except.ok ordersTwice }

end Mock

/-! ## Theorems -/

/-! ### Status canonicalization -/

/-- The lower-casing of a string of lower-case ASCII letters, digits or blanks is the
string itself, whatever the Unicode table. -/
theorem toLower_examples (tbl : Char → Char) :
    ToLower tbl "" = "" ∧ ToLower tbl "finishedx" = "finishedx"
    ∧ ToLower tbl " finished" = " finished" := by
  refine ⟨?_, ?_, ?_⟩ <;> rfl

/-- The changelly table leaves `Unknown` exactly on the nine tokens. -/
theorem changelly_status_iff (tbl : Char → Char) (s : String) :
    changelly.GetLocalStatus tbl s ≠ lightningswap.Status.OrderStatusUnknown ↔ ToLower tbl s ∈ statusTokens := by
  unfold changelly.GetLocalStatus statusTokens
  simp only []
  split <;> simp_all

/-- The changenow table leaves `Unknown` exactly on the nine tokens. -/
theorem changenow_status_iff (tbl : Char → Char) (s : String) :
    changenow.GetLocalStatus tbl s ≠ lightningswap.Status.OrderStatusUnknown ↔ ToLower tbl s ∈ statusTokens := by
  unfold changenow.GetLocalStatus statusTokens
  simp only []
  split <;> simp_all

/-- C1. For the changelly and changenow canonicalizers and every input string, the
returned status differs from `Unknown` exactly when the lower-cased input is one of the
nine tokens; the empty string, `"finishedx"` and `" finished"` map to `Unknown`. -/
theorem getLocalStatus_unknown_iff (tbl : Char → Char) (s : String) :
    (changelly.GetLocalStatus tbl s ≠ lightningswap.Status.OrderStatusUnknown ↔ ToLower tbl s ∈ statusTokens)
    ∧ (changenow.GetLocalStatus tbl s ≠ lightningswap.Status.OrderStatusUnknown ↔ ToLower tbl s ∈ statusTokens)
    ∧ changelly.GetLocalStatus tbl "" = lightningswap.Status.OrderStatusUnknown
    ∧ changenow.GetLocalStatus tbl "" = lightningswap.Status.OrderStatusUnknown
    ∧ changelly.GetLocalStatus tbl "finishedx" = lightningswap.Status.OrderStatusUnknown
    ∧ changenow.GetLocalStatus tbl "finishedx" = lightningswap.Status.OrderStatusUnknown
    ∧ changelly.GetLocalStatus tbl " finished" = lightningswap.Status.OrderStatusUnknown
    ∧ changenow.GetLocalStatus tbl " finished" = lightningswap.Status.OrderStatusUnknown := by
  obtain ⟨h0, h1, h2⟩ := toLower_examples tbl
  have hl : ∀ t, ToLower tbl t ∉ statusTokens →
      changelly.GetLocalStatus tbl t = lightningswap.Status.OrderStatusUnknown := fun t ht =>
    by_contra fun h => ht ((changelly_status_iff tbl t).1 h)
  have hn : ∀ t, ToLower tbl t ∉ statusTokens →
      changenow.GetLocalStatus tbl t = lightningswap.Status.OrderStatusUnknown := fun t ht =>
    by_contra fun h => ht ((changenow_status_iff tbl t).1 h)
  refine ⟨changelly_status_iff tbl s, changenow_status_iff tbl s, hl _ ?_, hn _ ?_, hl _ ?_,
    hn _ ?_, hl _ ?_, hn _ ?_⟩
  · rw [h0]; decide
  · rw [h0]; decide
  · rw [h1]; decide
  · rw [h1]; decide
  · rw [h2]; decide
  · rw [h2]; decide

/-- C2. Canonicalization is case-insensitive in every backend: two strings with the same
lower-casing get the same status from the changelly, changenow and fixedfloat tables. -/
theorem getLocalStatus_case_insensitive (tbl : Char → Char) (s t : String)
    (h : ToLower tbl s = ToLower tbl t) :
    changelly.GetLocalStatus tbl s = changelly.GetLocalStatus tbl t
    ∧ changenow.GetLocalStatus tbl s = changenow.GetLocalStatus tbl t
    ∧ fixedfloat.GetLocalStatus tbl s = fixedfloat.GetLocalStatus tbl t := by
  unfold changelly.GetLocalStatus changenow.GetLocalStatus fixedfloat.GetLocalStatus
  simp only [h, and_self]

/-- C2 at `"FINISHED"` and `"Finished"`, which both give the status of `"finished"`. -/
theorem getLocalStatus_case_insensitive_witness :
    ToLower id "FINISHED" = ToLower id "Finished"
    ∧ changelly.GetLocalStatus id "FINISHED" = lightningswap.Status.OrderStatusCompleted
    ∧ (changelly.GetLocalStatus id "FINISHED" = changelly.GetLocalStatus id "Finished"
      ∧ changenow.GetLocalStatus id "FINISHED" = changenow.GetLocalStatus id "Finished"
      ∧ fixedfloat.GetLocalStatus id "FINISHED" = fixedfloat.GetLocalStatus id "Finished") :=
  ⟨by decide, by decide, getLocalStatus_case_insensitive id "FINISHED" "Finished" (by decide)⟩

/-! ### Order creation -/

/-- C3. For the changelly and changenow adapters, `CreateOrder` with an invoiced amount
equal to zero (`+0` or `-0`) returns the invalid-amount error and the zero result without
any effect: the history is unchanged, so the transport is called zero times. -/
theorem createOrder_zero_amount {ρ : Type} (rt : Runtime) (js : changelly.Json ρ)
    (jn : changenow.Json) (c : changelly.Changelly) (d : changenow.ChangeNow)
    (orderInfo : lightningswap.CreateOrder) (h : Trace)
    (hz : Float64.eq orderInfo.InvoicedAmount Float64.zero = true) :
    c.CreateOrder rt js orderInfo h =
        { res := {}, err := some "changelly:error:createorder invoiced amount is 0", trace := h }
    ∧ d.CreateOrder rt jn orderInfo h =
        { res := {}, err := some "changenow:error:createorder invoiced amount is 0", trace := h }
    ∧ transportCalls (c.CreateOrder rt js orderInfo []).trace = 0
    ∧ transportCalls (d.CreateOrder rt jn orderInfo []).trace = 0 := by
  have hc : ∀ k, c.CreateOrder rt js orderInfo k =
      { res := {}, err := some "changelly:error:createorder invoiced amount is 0",
        trace := k } := by
    intro k
    unfold changelly.Changelly.CreateOrder
    simp only [hz, if_true]
    rfl
  have hd : ∀ k, d.CreateOrder rt jn orderInfo k =
      { res := {}, err := some "changenow:error:createorder invoiced amount is 0",
        trace := k } := by
    intro k
    unfold changenow.ChangeNow.CreateOrder
    simp only [hz, if_true]
    rfl
  refine ⟨hc h, hd h, ?_, ?_⟩
  · rw [hc []]; rfl
  · rw [hd []]; rfl

/-- C3 on an order of amount `-0.0` after an empty history. -/
theorem createOrder_zero_amount_witness :
    Float64.eq Mock.zeroOrder.InvoicedAmount Float64.zero = true
    ∧ (Mock.changellyClient.CreateOrder Mock.runtime Mock.changellyJson Mock.zeroOrder [] =
        { res := {}, err := some "changelly:error:createorder invoiced amount is 0", trace := [] }
      ∧ Mock.changenowClient.CreateOrder Mock.runtime Mock.changenowJson Mock.zeroOrder [] =
        { res := {}, err := some "changenow:error:createorder invoiced amount is 0", trace := [] }
      ∧ transportCalls
          (Mock.changellyClient.CreateOrder Mock.runtime Mock.changellyJson Mock.zeroOrder []).trace
          = 0
      ∧ transportCalls
          (Mock.changenowClient.CreateOrder Mock.runtime Mock.changenowJson Mock.zeroOrder []).trace
          = 0) :=
  ⟨by decide, createOrder_zero_amount Mock.runtime Mock.changellyJson Mock.changenowJson
    Mock.changellyClient Mock.changenowClient Mock.zeroOrder [] (by decide)⟩

/-- C4. With a blank API key, a non-zero amount and a transport that answers with a
well-formed response, the changelly `CreateOrder` returns the created order and a nil
error: the error `APIKEY is blank` it has set is overwritten by the transport call. The
constructor has accepted the blank key. -/
theorem changelly_createOrder_blank_key_succeeds :
    changelly.New Mock.blankConf = Except.ok Mock.changellyBlankClient
    ∧ Mock.changellyBlankClient.conf.ApiKey = ""
    ∧ Float64.eq Mock.order.InvoicedAmount Float64.zero = false
    ∧ Mock.changellyBlankClient.CreateOrder Mock.runtime Mock.changellyJson Mock.order [] =
        { res := { UUID := "abc123", DepositAddress := "bc1qdeposit", FromCurrency := "btc",
                   ToCurrency := "ltc" },
          err := none,
          trace := [Effect.call { base := "https://api.changelly.com/", method := "POST",
                                  path := "", body := "createTransaction", signed := true }] } := by
  refine ⟨rfl, ?_, ?_, ?_⟩ <;> decide

/-! ### The rate protocol -/

/-- C5. For changelly and changenow: when `QueryLimits` returns the limits `L` without
error and `EstimateAmount`, called after the one-second sleep, returns the estimate `E`
without error, `GetExchangeRateInfo` returns, without error, exactly the rate
`Amount / E.EstimatedAmount`, the bounds of `L` and the estimated amount (whether or not
that amount is zero). With amount `1.0` and estimate `2.5` the rate is `0.4`. -/
theorem rateInfo_of_subcalls {ρ : Type} (rt : Runtime) (js : changelly.Json ρ)
    (jn : changenow.Json) (c : changelly.Changelly) (d : changenow.ChangeNow)
    (vars : lightningswap.ExchangeRateRequest) (h t1 t2 : Trace)
    (L : lightningswap.QueryLimits) (E : lightningswap.EstimateAmount) :
    (c.QueryLimits rt js vars.From vars.To h = { res := L, err := none, trace := t1 } →
      c.EstimateAmount rt js vars (t1 ++ [Effect.sleep (timeSecond * 1)])
        = { res := E, err := none, trace := t2 } →
      c.GetExchangeRateInfo rt js vars h =
        { res := { ExchangeRate := Float64.div vars.Amount E.EstimatedAmount, Min := L.Min,
                   Max := L.Max, EstimatedAmount := E.EstimatedAmount },
          err := none, trace := t2 })
    ∧ (d.QueryLimits rt jn vars.From vars.To h = { res := L, err := none, trace := t1 } →
      d.EstimateAmount rt jn vars (t1 ++ [Effect.sleep (timeSecond * 1)])
        = { res := E, err := none, trace := t2 } →
      d.GetExchangeRateInfo rt jn vars h =
        { res := { ExchangeRate := Float64.div vars.Amount E.EstimatedAmount, Min := L.Min,
                   Max := L.Max, EstimatedAmount := E.EstimatedAmount },
          err := none, trace := t2 })
    ∧ Float64.div (Float64.lit 1 1) (Float64.lit 25 10) = Float64.lit 4 10 := by
  refine ⟨?_, ?_, by decide⟩
  · intro hl he
    unfold changelly.Changelly.GetExchangeRateInfo
    simp only [hl, he]
  · intro hl he
    unfold changenow.ChangeNow.GetExchangeRateInfo
    simp only [hl, he]

/-- C5 on the round-trip scenario: limits `{min: 0.01}`, estimate `2.5`, request
`{btc, ltc, 1.0}` give `{min: 0.01, exchangeRate: 0.4, estimatedAmount: 2.5}` in both
adapters. -/
theorem rateInfo_of_subcalls_witness :
    (Mock.changellyClient.GetExchangeRateInfo Mock.runtime Mock.changellyJson
        Mock.rateRequest []).res
      = { Min := Float64.lit 1 100, ExchangeRate := Float64.lit 4 10,
          EstimatedAmount := Float64.lit 25 10 }
    ∧ (Mock.changellyClient.GetExchangeRateInfo Mock.runtime Mock.changellyJson
        Mock.rateRequest []).err = none
    ∧ (Mock.changenowClient.GetExchangeRateInfo Mock.runtime Mock.changenowJson
        Mock.rateRequest []).res
      = { Min := Float64.lit 1 100, ExchangeRate := Float64.lit 4 10,
          EstimatedAmount := Float64.lit 25 10 }
    ∧ (Mock.changenowClient.GetExchangeRateInfo Mock.runtime Mock.changenowJson
        Mock.rateRequest []).err = none := by
  have hc := (rateInfo_of_subcalls Mock.runtime Mock.changellyJson Mock.changenowJson
    Mock.changellyClient Mock.changenowClient Mock.rateRequest []
    [Effect.call { base := "https://api.changelly.com/", method := "POST", path := "",
                   body := "getMinAmount", signed := true }]
    [Effect.call { base := "https://api.changelly.com/", method := "POST", path := "",
                   body := "getMinAmount", signed := true },
     Effect.sleep 1000000000,
     Effect.call { base := "https://api.changelly.com/", method := "POST", path := "",
                   body := "getExchangeAmount", signed := true }]
    { Min := Float64.lit 1 100 } { EstimatedAmount := Float64.lit 25 10 }).1
    (by decide) (by decide)
  have hd := (rateInfo_of_subcalls Mock.runtime Mock.changellyJson Mock.changenowJson
    Mock.changellyClient Mock.changenowClient Mock.rateRequest []
    [Effect.call { base := "https://changenow.io/api/v1/", method := "GET",
                   path := "min-amount/btc_ltc", body := "", signed := false }]
    [Effect.call { base := "https://changenow.io/api/v1/", method := "GET",
                   path := "min-amount/btc_ltc", body := "", signed := false },
     Effect.sleep 1000000000,
     Effect.call { base := "https://changenow.io/api/v1/", method := "GET",
                   path := "exchange-amount/1.00000000/btc_ltc?api_key=key", body := "",
                   signed := false }]
    { Min := Float64.lit 1 100 } { EstimatedAmount := Float64.lit 25 10 }).2.1
    (by decide) (by decide)
  rw [hc, hd]
  refine ⟨?_, rfl, ?_, rfl⟩ <;> decide

/-- A message contains itself. -/
theorem contains_self (e : String) : Contains e e :=
  List.infix_refl e.data

/-- A message with something put in front still contains the message. -/
theorem contains_append_left (a e : String) : Contains (a ++ e) e := by
  unfold Contains
  rw [String.data_append]
  exact (List.suffix_append a.data e.data).isInfix

/-- In changelly and changenow a failure of either sub-call is returned by
`GetExchangeRateInfo`, with a message that contains the message of the sub-call. -/
theorem rateInfo_propagates_subcall_error {ρ : Type} (rt : Runtime) (js : changelly.Json ρ)
    (jn : changenow.Json) (c : changelly.Changelly) (d : changenow.ChangeNow)
    (vars : lightningswap.ExchangeRateRequest) (h : Trace) (e : String) :
    ((c.QueryLimits rt js vars.From vars.To h).err = some e →
      ∃ m, (c.GetExchangeRateInfo rt js vars h).err = some m ∧ Contains m e)
    ∧ ((c.QueryLimits rt js vars.From vars.To h).err = none →
      (c.EstimateAmount rt js vars ((c.QueryLimits rt js vars.From vars.To h).trace
        ++ [Effect.sleep (timeSecond * 1)])).err = some e →
      ∃ m, (c.GetExchangeRateInfo rt js vars h).err = some m ∧ Contains m e)
    ∧ ((d.QueryLimits rt jn vars.From vars.To h).err = some e →
      ∃ m, (d.GetExchangeRateInfo rt jn vars h).err = some m ∧ Contains m e)
    ∧ ((d.QueryLimits rt jn vars.From vars.To h).err = none →
      (d.EstimateAmount rt jn vars ((d.QueryLimits rt jn vars.From vars.To h).trace
        ++ [Effect.sleep (timeSecond * 1)])).err = some e →
      ∃ m, (d.GetExchangeRateInfo rt jn vars h).err = some m ∧ Contains m e) := by
  refine ⟨?_, ?_, ?_, ?_⟩
  · intro hl
    refine ⟨e, ?_, contains_self e⟩
    unfold changelly.Changelly.GetExchangeRateInfo
    simp only [hl]
  · intro hl he
    refine ⟨e, ?_, contains_self e⟩
    unfold changelly.Changelly.GetExchangeRateInfo
    simp only [hl, he]
  · intro hl
    refine ⟨changenow.LIBNAME ++ ":error: " ++ e, ?_, contains_append_left _ e⟩
    unfold changenow.ChangeNow.GetExchangeRateInfo
    simp only [hl]
  · intro hl he
    refine ⟨changenow.LIBNAME ++ ":error: " ++ e, ?_, contains_append_left _ e⟩
    unfold changenow.ChangeNow.GetExchangeRateInfo
    simp only [hl, he]

/-- In stealthex, once the estimate has succeeded, no failure of the range call is ever
returned as an error: the call panics or returns a nil error. -/
theorem stealthex_range_failure_not_reported (rt : Runtime) (js : stealthex.Json)
    (s : stealthex.stealthex) (vars : lightningswap.ExchangeRateRequest) (h : Trace)
    (hest : (s.estimateAmount rt js vars h).err = none) :
    ∀ r, s.GetExchangeRateInfo rt js vars h = stealthex.Outcome.returned r → r.err = none := by
  intro r hr
  unfold stealthex.stealthex.GetExchangeRateInfo at hr
  simp only [hest] at hr
  split at hr
  · split at hr
    · exact absurd hr (by simp)
    · cases hr; rfl
  · cases hr; rfl

/-- C6. The stealthex `GetExchangeRateInfo` does not report a failing range call. When the
transport fails on the range call, `getRange` returns a nil range and the call panics on
its dereference; when the range payload does not decode, the call returns the estimate
with a nil error. In both runs the estimate call has succeeded and `getRange` has
returned an error. -/
theorem stealthex_rateInfo_range_failure :
    (Mock.stealthexClient.estimateAmount Mock.runtimeSecondCallFails Mock.stealthexJson
        Mock.rateRequest []).err = none
    ∧ (Mock.stealthexClient.getRange Mock.runtimeSecondCallFails Mock.stealthexJson
        Mock.rateRequest
        (Mock.stealthexClient.estimateAmount Mock.runtimeSecondCallFails Mock.stealthexJson
          Mock.rateRequest []).trace).err = some "connection reset"
    ∧ Mock.stealthexClient.GetExchangeRateInfo Mock.runtimeSecondCallFails Mock.stealthexJson
        Mock.rateRequest []
      = stealthex.Outcome.panicked "runtime error: invalid memory address or nil pointer dereference"
          [Effect.call { base := "https://api.stealthex.io/api/v2/", method := "GET",
                         path := "estimate/btc/ltc?api_key=key&fixed=true&amount=1.00000000",
                         body := "", signed := false },
           Effect.call { base := "https://api.stealthex.io/api/v2/", method := "GET",
                         path := "range/btc/ltc?api_key=key&fixed=true", body := "",
                         signed := false }]
    ∧ (Mock.stealthexClient.getRange Mock.runtime Mock.stealthexJsonBadRange Mock.rateRequest
        (Mock.stealthexClient.estimateAmount Mock.runtime Mock.stealthexJsonBadRange
          Mock.rateRequest []).trace).err = some "unexpected end of JSON input"
    ∧ Mock.stealthexClient.GetExchangeRateInfo Mock.runtime Mock.stealthexJsonBadRange
        Mock.rateRequest []
      = stealthex.Outcome.returned
          { res := { ExchangeRate := Float64.lit 4 10, EstimatedAmount := Float64.lit 25 10 },
            err := none,
            trace :=
              [Effect.call { base := "https://api.stealthex.io/api/v2/", method := "GET",
                             path := "estimate/btc/ltc?api_key=key&fixed=true&amount=1.00000000",
                             body := "", signed := false },
               Effect.call { base := "https://api.stealthex.io/api/v2/", method := "GET",
                             path := "range/btc/ltc?api_key=key&fixed=true", body := "",
                             signed := false }] } := by
  refine ⟨?_, ?_, ?_, ?_, ?_⟩ <;> decide

/-! ### The changelly order lookup -/

/-- The selection loop from any start value: without a record of the given id the start
value is kept, with one the result is a record of the list with that id. -/
theorem foldl_select {ρ : Type} (orderID : String) (L : List (changelly.OrderInfoResult ρ))
    (acc : changelly.OrderInfoResult ρ) :
    ((∀ v ∈ L, v.UUID ≠ orderID) →
      L.foldl (fun fin v => if v.UUID = orderID then v else fin) acc = acc)
    ∧ ((∃ v ∈ L, v.UUID = orderID) →
      L.foldl (fun fin v => if v.UUID = orderID then v else fin) acc ∈ L
      ∧ (L.foldl (fun fin v => if v.UUID = orderID then v else fin) acc).UUID = orderID) := by
  induction L generalizing acc with
  | nil => exact ⟨fun _ => rfl, fun ⟨v, hv, _⟩ => absurd hv (List.not_mem_nil v)⟩
  | cons a L ih =>
    constructor
    · intro hno
      have ha : a.UUID ≠ orderID := hno a (List.mem_cons_self a L)
      simp only [List.foldl_cons, if_neg ha]
      exact (ih acc).1 (fun v hv => hno v (List.mem_cons_of_mem a hv))
    · intro hex
      simp only [List.foldl_cons]
      by_cases hL : ∃ v ∈ L, v.UUID = orderID
      · obtain ⟨hm, hu⟩ := (ih (if a.UUID = orderID then a else acc)).2 hL
        exact ⟨List.mem_cons_of_mem a hm, hu⟩
      · have hno : ∀ v ∈ L, v.UUID ≠ orderID := fun v hv hu => hL ⟨v, hv, hu⟩
        have ha : a.UUID = orderID := by
          obtain ⟨v, hv, hu⟩ := hex
          rcases List.mem_cons.1 hv with rfl | hv
          · exact hu
          · exact absurd hu (hno v hv)
        rw [(ih (if a.UUID = orderID then a else acc)).1 hno, if_pos ha]
        exact ⟨List.mem_cons_self a L, ha⟩

/-- The zero record compares equal to the zero record. -/
theorem eqZero_zero {ρ : Type} [GoZero ρ] :
    (changelly.OrderInfoResult.zero : changelly.OrderInfoResult ρ).eqZero = true := by
  have hf : Float64.eq Float64.zero Float64.zero = true := by decide
  simp [changelly.OrderInfoResult.eqZero, changelly.OrderInfoResult.zero, hf,
    GoZero.eqZero_zero]

/-- A record with a non-empty id is not the zero record. -/
theorem eqZero_of_uuid_ne {ρ : Type} [GoZero ρ] (v : changelly.OrderInfoResult ρ)
    (hv : v.UUID ≠ "") : v.eqZero = false := by
  simp [changelly.OrderInfoResult.eqZero, hv]

/-- Once the backend has returned the decoded list `L`, `OrderInfo` is decided by the
selected record alone. -/
theorem orderInfo_of_decoded {ρ : Type} [GoZero ρ] (rt : Runtime) (js : changelly.Json ρ)
    (c : changelly.Changelly) (orderID : String) (h : Trace)
    (L : List (changelly.OrderInfoResult ρ))
    (hb : changelly.ordersDecoded rt js c orderID h L) :
    ∃ t, c.OrderInfo rt js orderID h =
      if (changelly.selectOrder L orderID).eqZero then
        { res := {}, err := some "changelly:error: order info could not be found", trace := t }
      else
        { res := changelly.orderInfoOf rt.unicodeLower (changelly.selectOrder L orderID),
          err := none, trace := t } := by
  obtain ⟨payload, r, response, hm, hdo, hresp, herr, hl⟩ := hb
  refine ⟨h ++ [Effect.call { base := changelly.API_BASE, method := "POST", path := "",
                              body := payload, signed := true }], ?_⟩
  unfold changelly.Changelly.OrderInfo
  simp only [hm, hdo, hresp, herr, hl]
  rfl

/-- The comparison with the zero value holds exactly for the all-zero record. -/
theorem eqZero_iff_allZero {ρ : Type} [GoZero ρ] (v : changelly.OrderInfoResult ρ) :
    v.eqZero = true ↔ v.allZero := by
  simp [changelly.OrderInfoResult.eqZero, changelly.OrderInfoResult.allZero, and_assoc]

/-- The selection loop returns the last record of the list with the given id. -/
theorem selectOrder_of_isLastMatch {ρ : Type} [GoZero ρ] (L : List (changelly.OrderInfoResult ρ))
    (orderID : String) (w : changelly.OrderInfoResult ρ)
    (hw : changelly.IsLastMatch L orderID w) : changelly.selectOrder L orderID = w := by
  obtain ⟨hu, pre, post, rfl, hpost⟩ := hw
  unfold changelly.selectOrder
  rw [List.foldl_append, List.foldl_cons, if_pos hu]
  exact (foldl_select orderID post w).1 hpost

/-- A list with a record of the given id has a last record of that id. -/
theorem exists_isLastMatch {ρ : Type} (L : List (changelly.OrderInfoResult ρ))
    (orderID : String) (hex : ∃ v ∈ L, v.UUID = orderID) :
    ∃ w, changelly.IsLastMatch L orderID w := by
  induction L with
  | nil =>
    obtain ⟨v, hv, _⟩ := hex
    exact absurd hv (List.not_mem_nil v)
  | cons a L ih =>
    by_cases hL : ∃ v ∈ L, v.UUID = orderID
    · obtain ⟨w, hu, pre, post, hl, hpost⟩ := ih hL
      exact ⟨w, hu, a :: pre, post, by rw [hl]; rfl, hpost⟩
    · have hno : ∀ v ∈ L, v.UUID ≠ orderID := fun v hv hu => hL ⟨v, hv, hu⟩
      have ha : a.UUID = orderID := by
        obtain ⟨v, hv, hu⟩ := hex
        rcases List.mem_cons.1 hv with rfl | hv
        · exact hu
        · exact absurd hu (hno v hv)
      exact ⟨a, ha, [], L, rfl, hno⟩

/-- C7 (amended). For every decoded list `L` the backend returns and every order id: if
some record of `L` has that id, there is a last record `w` of `L` with that id, and when
`w` is not the all-zero record, which is so whenever the id is not empty, `OrderInfo`
succeeds and returns the fields of `w`, with the canonical status of the native status of
`w`; if no record of `L` has the id, `OrderInfo` fails with the order-not-found error. -/
theorem changelly_orderInfo_selects {ρ : Type} [GoZero ρ] (rt : Runtime)
    (js : changelly.Json ρ) (c : changelly.Changelly) (orderID : String) (h : Trace)
    (L : List (changelly.OrderInfoResult ρ))
    (hb : changelly.ordersDecoded rt js c orderID h L) :
    ((∃ v ∈ L, v.UUID = orderID) → ∃ w, changelly.IsLastMatch L orderID w)
    ∧ (∀ w, changelly.IsLastMatch L orderID w → ¬ w.allZero →
        (c.OrderInfo rt js orderID h).err = none
        ∧ (c.OrderInfo rt js orderID h).res =
            { ReceiveAmount := w.AmountTo, Confirmations := w.PayinConfirmations,
              TxID := w.PayoutHash, Status := w.Status,
              InternalStatus := changelly.GetLocalStatus rt.unicodeLower w.Status })
    ∧ (∀ w, changelly.IsLastMatch L orderID w → orderID ≠ "" → ¬ w.allZero)
    ∧ ((∀ v ∈ L, v.UUID ≠ orderID) →
      (c.OrderInfo rt js orderID h).err = some "changelly:error: order info could not be found"
      ∧ (c.OrderInfo rt js orderID h).res = {}) := by
  obtain ⟨t, ht⟩ := orderInfo_of_decoded rt js c orderID h L hb
  refine ⟨exists_isLastMatch L orderID, ?_, ?_, ?_⟩
  · intro w hw hnz
    have hsel := selectOrder_of_isLastMatch L orderID w hw
    have hz : w.eqZero = false := by
      cases hq : w.eqZero
      · rfl
      · exact absurd ((eqZero_iff_allZero w).1 hq) hnz
    rw [ht, hsel, hz]
    exact ⟨rfl, rfl⟩
  · intro w hw hne hall
    exact hne (hw.1.symm.trans hall.1)
  · intro hno
    have hz : changelly.selectOrder L orderID = changelly.OrderInfoResult.zero :=
      (foldl_select orderID L changelly.OrderInfoResult.zero).1 hno
    rw [ht, hz, eqZero_zero]
    exact ⟨rfl, rfl⟩

/-- C7 on the order scenario: against the list `[xyz, abc123 (finished)]` the lookup of
`abc123` returns that record with canonical status `Completed`, and the lookup of `nope`
fails with order-not-found; against two records of id `abc123`, the first `waiting` and
the last `FINISHED`, the lookup returns the last. -/
theorem changelly_orderInfo_selects_witness :
    changelly.ordersDecoded Mock.runtime Mock.changellyJson Mock.changellyClient "abc123" []
      Mock.orders
    ∧ (Mock.changellyClient.OrderInfo Mock.runtime Mock.changellyJson "abc123" []).err = none
    ∧ (Mock.changellyClient.OrderInfo Mock.runtime Mock.changellyJson "abc123" []).res
        = { ReceiveAmount := Float64.lit 25 10, Confirmations := "3", TxID := "0xfeed",
            Status := "finished",
            InternalStatus := lightningswap.Status.OrderStatusCompleted }
    ∧ (Mock.changellyClient.OrderInfo Mock.runtime Mock.changellyJson "nope" []).err
        = some "changelly:error: order info could not be found"
    ∧ (Mock.changellyClient.OrderInfo Mock.runtime Mock.changellyJsonTwice "abc123" []).res
        = { ReceiveAmount := Float64.lit 25 10, Confirmations := "3", TxID := "0xfeed",
            Status := "FINISHED",
            InternalStatus := lightningswap.Status.OrderStatusCompleted } := by
  have hb : changelly.ordersDecoded Mock.runtime Mock.changellyJson Mock.changellyClient
      "abc123" [] Mock.orders := ⟨_, _, _, rfl, rfl, rfl, rfl, rfl⟩
  have hn : changelly.ordersDecoded Mock.runtime Mock.changellyJson Mock.changellyClient
      "nope" [] Mock.orders := ⟨_, _, _, rfl, rfl, rfl, rfl, rfl⟩
  have ht : changelly.ordersDecoded Mock.runtime Mock.changellyJsonTwice Mock.changellyClient
      "abc123" [] Mock.ordersTwice := ⟨_, _, _, rfl, rfl, rfl, rfl, rfl⟩
  have h1 := (changelly_orderInfo_selects Mock.runtime Mock.changellyJson Mock.changellyClient
    "abc123" [] Mock.orders hb).2.1
    { UUID := "abc123", AmountTo := Mock.f2_5, PayinConfirmations := "3",
      PayoutHash := "0xfeed", Status := "finished", other := () }
    ⟨rfl, [_], [], rfl, fun v hv => absurd hv (List.not_mem_nil v)⟩
    (fun hall => absurd hall.1 (by decide))
  have h2 := (changelly_orderInfo_selects Mock.runtime Mock.changellyJsonTwice
    Mock.changellyClient "abc123" [] Mock.ordersTwice ht).2.1
    { UUID := "abc123", AmountTo := Mock.f2_5, PayinConfirmations := "3",
      PayoutHash := "0xfeed", Status := "FINISHED", other := () }
    ⟨rfl, [_], [], rfl, fun v hv => absurd hv (List.not_mem_nil v)⟩
    (fun hall => absurd hall.1 (by decide))
  refine ⟨hb, h1.1, h1.2.trans (by decide), ?_, h2.2.trans (by decide)⟩
  exact ((changelly_orderInfo_selects Mock.runtime Mock.changellyJson Mock.changellyClient
    "nope" [] Mock.orders hn).2.2.2 (by decide)).1

/-- C7 as stated fails on the empty order id: the backend returns the one-record list
`[{}]`, whose record has the id `""` that was asked for, and `OrderInfo ""` fails with
order-not-found. -/
theorem changelly_orderInfo_zero_record_not_found :
    changelly.ordersDecoded Mock.runtime Mock.changellyJsonZeroRecord Mock.changellyClient ""
      [] [changelly.OrderInfoResult.zero]
    ∧ (∃ v ∈ [(changelly.OrderInfoResult.zero : changelly.OrderInfoResult Unit)], v.UUID = "")
    ∧ Mock.changellyClient.OrderInfo Mock.runtime Mock.changellyJsonZeroRecord "" [] =
        { res := {}, err := some "changelly:error: order info could not be found",
          trace := [Effect.call { base := "https://api.changelly.com/", method := "POST",
                                  path := "", body := "getTransactions", signed := true }] } := by
  refine ⟨⟨_, _, _, rfl, rfl, rfl, rfl, rfl⟩, ⟨_, List.mem_singleton.2 rfl, rfl⟩, by decide⟩

/-! ### Unsupported operations -/

/-- In changelly and changenow, `UpdateOrder` and `CancelOrder` return the not-available
error for every input and leave the history unchanged. -/
theorem update_cancel_not_available {α : Type} (c : changelly.Changelly)
    (d : changenow.ChangeNow) (vars : α) (oId : String) (h : Trace) :
    c.UpdateOrder vars h =
        { res := {}, err := some "changelly:error:update not available for this exchange",
          trace := h }
    ∧ c.CancelOrder oId h =
        { res := "", err := some "changelly:error:cancel not available for this exchange",
          trace := h }
    ∧ d.UpdateOrder vars h =
        { res := {}, err := some "changenow:error:update not available for this exchange",
          trace := h }
    ∧ d.CancelOrder oId h =
        { res := "", err := some "changenow:error:cancel not available for this exchange",
          trace := h } :=
  ⟨rfl, rfl, rfl, rfl⟩

/-- C8. The fixedfloat `UpdateOrder` and `CancelOrder` return an empty success for every
input: the zero result and a nil error, with no transport call. -/
theorem fixedfloat_update_cancel_empty_success {α : Type} (c : fixedfloat.FixedFloat)
    (vars : α) (orderID : String) (h : Trace) :
    c.UpdateOrder vars h = { res := {}, err := none, trace := h }
    ∧ c.CancelOrder orderID h = { res := "", err := none, trace := h } :=
  ⟨rfl, rfl⟩

/-! ### Error tagging and construction -/

/-- C9. The error of `changenow.New` on a blank API key is `APIKEY is blank`, which does
not contain the backend name, while the constructors of fixedfloat and stealthex put
their name in front; the errors of the fixedfloat `QueryRates` and of the stealthex
`QueryLimits` carry no name either. -/
theorem changenow_new_error_untagged :
    changenow.New Mock.blankConf = Except.error "APIKEY is blank"
    ∧ ¬ Contains "APIKEY is blank" changenow.LIBNAME
    ∧ fixedfloat.New Mock.blankConf
        = Except.error "fixedfloat:error: api kay and api secret must be provided"
    ∧ stealthex.New Mock.blankConf = Except.error "stealthex:error: APIKEY is blank"
    ∧ (Mock.fixedfloatClient.QueryRates () []).err = some "not supported"
    ∧ ¬ Contains "not supported" fixedfloat.LIBNAME
    ∧ (Mock.stealthexClient.QueryLimits "btc" "ltc" []).err = some "not supported"
    ∧ ¬ Contains "not supported" stealthex.LIBNAME := by
  refine ⟨rfl, by decide, rfl, rfl, rfl, by decide, rfl, by decide⟩

/-- C10. `changenow.New` and `stealthex.New` fail exactly on an empty API key,
`fixedfloat.New` exactly on an empty API key or an empty API secret, and an adapter a
constructor returns holds the configuration it was given. -/
theorem new_fails_iff_blank (conf : lightningswap.ExchangeConfig) :
    ((∃ msg, changenow.New conf = Except.error msg) ↔ conf.ApiKey = "")
    ∧ ((∃ msg, stealthex.New conf = Except.error msg) ↔ conf.ApiKey = "")
    ∧ ((∃ msg, fixedfloat.New conf = Except.error msg)
        ↔ (conf.ApiKey = "" ∨ conf.ApiSecret = ""))
    ∧ (∀ a, changenow.New conf = Except.ok a → a.conf = conf)
    ∧ (∀ a, stealthex.New conf = Except.ok a → a.conf = conf)
    ∧ (∀ a, fixedfloat.New conf = Except.ok a → a.conf = conf)
    ∧ (conf.ApiKey ≠ "" → ∃ a, changenow.New conf = Except.ok a)
    ∧ (conf.ApiKey ≠ "" → ∃ a, stealthex.New conf = Except.ok a)
    ∧ (conf.ApiKey ≠ "" → conf.ApiSecret ≠ "" → ∃ a, fixedfloat.New conf = Except.ok a) := by
  unfold changenow.New stealthex.New fixedfloat.New
  refine ⟨?_, ?_, ?_, ?_, ?_, ?_, ?_, ?_, ?_⟩
  · by_cases hk : conf.ApiKey = "" <;> simp [hk]
  · by_cases hk : conf.ApiKey = "" <;> simp [hk]
  · by_cases hk : conf.ApiKey = "" <;> by_cases hs : conf.ApiSecret = "" <;> simp [hk, hs]
  · intro a
    by_cases hk : conf.ApiKey = "" <;> simp [hk]
    rintro rfl; rfl
  · intro a
    by_cases hk : conf.ApiKey = "" <;> simp [hk]
    rintro rfl; rfl
  · intro a
    by_cases hk : conf.ApiKey = "" <;> by_cases hs : conf.ApiSecret = "" <;> simp [hk, hs]
    rintro rfl; rfl
  · intro hk; simp [hk]
  · intro hk; simp [hk]
  · intro hk hs; simp [hk, hs]

/-- C10 on a configuration with a key and a secret, and on one with a blank key. -/
theorem new_fails_iff_blank_witness :
    changenow.New Mock.conf = Except.ok Mock.changenowClient
    ∧ Mock.changenowClient.conf = Mock.conf
    ∧ (∃ msg, changenow.New Mock.blankConf = Except.error msg)
    ∧ (∃ msg, fixedfloat.New { ApiKey := "key", ApiSecret := "" } = Except.error msg) :=
  ⟨rfl, rfl, (new_fails_iff_blank Mock.blankConf).1.2 rfl,
    (new_fails_iff_blank { ApiKey := "key", ApiSecret := "" }).2.2.1.2 (Or.inr rfl)⟩

/-! ### A zero estimate -/

/-- A float that compares equal to zero is a finite value of mantissa zero. -/
theorem eq_zero_iff (e : Float64) (he : Float64.eq e Float64.zero = true) :
    ∃ t f, e = Float64.fin t 0 f := by
  cases e with
  | nan => simp [Float64.eq] at he
  | inf s => simp [Float64.eq, Float64.zero, Float64.signedZero] at he
  | fin t n f =>
    simp [Float64.eq, Float64.zero, Float64.signedZero] at he
    exact ⟨t, f, by rw [he]⟩

/-- The quotient of any float by a zero of either sign is an infinity or a NaN. -/
theorem div_zero_not_finite (a e : Float64) (he : Float64.eq e Float64.zero = true) :
    Float64.isFinite (Float64.div a e) = false := by
  obtain ⟨t, f, rfl⟩ := eq_zero_iff e he
  cases a with
  | nan => rfl
  | inf s => rfl
  | fin s m g =>
    by_cases hm : m = 0 <;> simp [Float64.div, Float64.isFinite, hm]

/-- When the stealthex `estimateAmount` succeeds its rate is the quotient of the requested
amount by the estimated amount. -/
theorem stealthex_estimate_rate (rt : Runtime) (js : stealthex.Json) (s : stealthex.stealthex)
    (vars : lightningswap.ExchangeRateRequest) (h : Trace)
    (hest : (s.estimateAmount rt js vars h).err = none) :
    (s.estimateAmount rt js vars h).res.ExchangeRate
      = Float64.div vars.Amount (s.estimateAmount rt js vars h).res.EstimatedAmount := by
  unfold stealthex.stealthex.estimateAmount at hest ⊢
  simp only [] at hest ⊢
  split
  · rename_i e he
    simp [he] at hest
  · rename_i r hr
    simp only [hr] at hest
    split
    · rename_i x e hp
      simp [hp] at hest
    · rfl

/-- The rate a returning stealthex `GetExchangeRateInfo` reports is the rate of its
estimate call. -/
theorem stealthex_returned_rate (rt : Runtime) (js : stealthex.Json) (s : stealthex.stealthex)
    (vars : lightningswap.ExchangeRateRequest) (h : Trace)
    (r : Ret lightningswap.ExchangeRateInfo)
    (hr : s.GetExchangeRateInfo rt js vars h = stealthex.Outcome.returned r) :
    r.res.ExchangeRate = (s.estimateAmount rt js vars h).res.ExchangeRate := by
  unfold stealthex.stealthex.GetExchangeRateInfo at hr
  simp only [] at hr
  split at hr
  · cases hr; rfl
  · split at hr
    · split at hr
      · exact absurd hr (by simp)
      · cases hr; rfl
    · cases hr; rfl

/-- C11 (amended). A zero estimate is not turned into an error. In changelly and changenow,
when the limits call succeeds and the estimate call succeeds with an estimated amount equal
to zero, `GetExchangeRateInfo` returns a nil error and the rate `Amount / 0`, which is an
infinity or a NaN. In stealthex, `estimateAmount` then returns that rate with a nil error,
and when the range call succeeds as well `GetExchangeRateInfo` returns it with a nil
error. -/
theorem rateInfo_zero_estimate {ρ : Type} (rt : Runtime) (js : changelly.Json ρ)
    (jn : changenow.Json) (sj : stealthex.Json) (c : changelly.Changelly)
    (d : changenow.ChangeNow) (s : stealthex.stealthex)
    (vars : lightningswap.ExchangeRateRequest) (h t1 t2 : Trace)
    (L : lightningswap.QueryLimits) (E : lightningswap.EstimateAmount)
    (hz : Float64.eq E.EstimatedAmount Float64.zero = true) :
    (c.QueryLimits rt js vars.From vars.To h = { res := L, err := none, trace := t1 } →
      c.EstimateAmount rt js vars (t1 ++ [Effect.sleep (timeSecond * 1)])
        = { res := E, err := none, trace := t2 } →
      (c.GetExchangeRateInfo rt js vars h).err = none
      ∧ (c.GetExchangeRateInfo rt js vars h).res.ExchangeRate
          = Float64.div vars.Amount E.EstimatedAmount
      ∧ Float64.isFinite (c.GetExchangeRateInfo rt js vars h).res.ExchangeRate = false)
    ∧ (d.QueryLimits rt jn vars.From vars.To h = { res := L, err := none, trace := t1 } →
      d.EstimateAmount rt jn vars (t1 ++ [Effect.sleep (timeSecond * 1)])
        = { res := E, err := none, trace := t2 } →
      (d.GetExchangeRateInfo rt jn vars h).err = none
      ∧ (d.GetExchangeRateInfo rt jn vars h).res.ExchangeRate
          = Float64.div vars.Amount E.EstimatedAmount
      ∧ Float64.isFinite (d.GetExchangeRateInfo rt jn vars h).res.ExchangeRate = false)
    ∧ ((s.estimateAmount rt sj vars h).err = none →
      (s.estimateAmount rt sj vars h).res.EstimatedAmount = E.EstimatedAmount →
      (s.estimateAmount rt sj vars h).res.ExchangeRate
          = Float64.div vars.Amount E.EstimatedAmount
      ∧ Float64.isFinite (s.estimateAmount rt sj vars h).res.ExchangeRate = false
      ∧ ((s.getRange rt sj vars (s.estimateAmount rt sj vars h).trace).err = none →
          ∃ r, s.GetExchangeRateInfo rt sj vars h = stealthex.Outcome.returned r
            ∧ r.err = none
            ∧ r.res.ExchangeRate = Float64.div vars.Amount E.EstimatedAmount
            ∧ r.res.EstimatedAmount = E.EstimatedAmount
            ∧ Float64.isFinite r.res.ExchangeRate = false)) := by
  have hnf := div_zero_not_finite vars.Amount E.EstimatedAmount hz
  refine ⟨?_, ?_, ?_⟩
  · intro hl he
    have hg : c.GetExchangeRateInfo rt js vars h =
        { res := { ExchangeRate := Float64.div vars.Amount E.EstimatedAmount, Min := L.Min,
                   Max := L.Max, EstimatedAmount := E.EstimatedAmount },
          err := none, trace := t2 } := by
      unfold changelly.Changelly.GetExchangeRateInfo
      simp only [hl, he]
    rw [hg]
    exact ⟨rfl, rfl, hnf⟩
  · intro hl he
    have hg : d.GetExchangeRateInfo rt jn vars h =
        { res := { ExchangeRate := Float64.div vars.Amount E.EstimatedAmount, Min := L.Min,
                   Max := L.Max, EstimatedAmount := E.EstimatedAmount },
          err := none, trace := t2 } := by
      unfold changenow.ChangeNow.GetExchangeRateInfo
      simp only [hl, he]
    rw [hg]
    exact ⟨rfl, rfl, hnf⟩
  · intro hest hamt
    have hrate : (s.estimateAmount rt sj vars h).res.ExchangeRate
        = Float64.div vars.Amount E.EstimatedAmount := by
      rw [stealthex_estimate_rate rt sj s vars h hest, hamt]
    refine ⟨hrate, by rw [hrate]; exact hnf, ?_⟩
    intro hrange
    refine ⟨{ res := (s.estimateAmount rt sj vars h).res, err := none,
              trace := (s.getRange rt sj vars (s.estimateAmount rt sj vars h).trace).trace },
      ?_, rfl, hrate, hamt, by rw [hrate]; exact hnf⟩
    unfold stealthex.stealthex.GetExchangeRateInfo
    simp only [hest, hrange]

/-- C11 on the round-trip request with a backend whose estimate is `0`: the three adapters
return a nil error and the rate `+Inf`. -/
theorem rateInfo_zero_estimate_witness :
    Float64.eq Float64.zero Float64.zero = true
    ∧ (Mock.changellyClient.GetExchangeRateInfo Mock.runtimeZeroEstimate Mock.changellyJson
        Mock.rateRequest []).err = none
    ∧ Float64.isFinite (Mock.changellyClient.GetExchangeRateInfo Mock.runtimeZeroEstimate
        Mock.changellyJson Mock.rateRequest []).res.ExchangeRate = false
    ∧ (Mock.changenowClient.GetExchangeRateInfo Mock.runtimeZeroEstimate
        Mock.changenowJsonZeroEstimate Mock.rateRequest []).err = none
    ∧ Float64.isFinite (Mock.changenowClient.GetExchangeRateInfo Mock.runtimeZeroEstimate
        Mock.changenowJsonZeroEstimate Mock.rateRequest []).res.ExchangeRate = false
    ∧ (∃ r, Mock.stealthexClient.GetExchangeRateInfo Mock.runtimeZeroEstimate
        Mock.stealthexJsonZeroEstimate Mock.rateRequest [] = stealthex.Outcome.returned r
        ∧ r.err = none
        ∧ r.res.ExchangeRate = Float64.div Mock.rateRequest.Amount Float64.zero
        ∧ r.res.EstimatedAmount = Float64.zero
        ∧ Float64.isFinite r.res.ExchangeRate = false) := by
  have hc := (rateInfo_zero_estimate Mock.runtimeZeroEstimate Mock.changellyJson
    Mock.changenowJsonZeroEstimate Mock.stealthexJsonZeroEstimate Mock.changellyClient
    Mock.changenowClient Mock.stealthexClient Mock.rateRequest []
    [Effect.call (changelly.post "getMinAmount")]
    [Effect.call (changelly.post "getMinAmount"), Effect.sleep 1000000000,
     Effect.call (changelly.post "getExchangeAmount")]
    { Min := Float64.lit 1 100 } { EstimatedAmount := Float64.zero } (by decide)).1
    (by decide) (by decide)
  have hd := (rateInfo_zero_estimate Mock.runtimeZeroEstimate Mock.changellyJson
    Mock.changenowJsonZeroEstimate Mock.stealthexJsonZeroEstimate Mock.changellyClient
    Mock.changenowClient Mock.stealthexClient Mock.rateRequest []
    [Effect.call (changenow.limitsRequest "btc" "ltc")]
    [Effect.call (changenow.limitsRequest "btc" "ltc"), Effect.sleep 1000000000,
     Effect.call (changenow.estimateRequest Mock.runtimeZeroEstimate Mock.changenowClient
       Mock.rateRequest)]
    { Min := Float64.lit 1 100 } { EstimatedAmount := Float64.zero } (by decide)).2.1
    (by decide) (by decide)
  have hs := ((rateInfo_zero_estimate Mock.runtimeZeroEstimate Mock.changellyJson
    Mock.changenowJsonZeroEstimate Mock.stealthexJsonZeroEstimate Mock.changellyClient
    Mock.changenowClient Mock.stealthexClient Mock.rateRequest [] [] []
    {} { EstimatedAmount := Float64.zero } (by decide)).2.2 (by decide) (by decide)).2.2
    (by decide)
  exact ⟨by decide, hc.1, hc.2.2, hd.1, hd.2.2, hs⟩

/-- C11 as stated fails: with a limits answer of `0.01` and an estimate answer of `0` for
the request `{btc, ltc, 1.0}`, the changelly and changenow `GetExchangeRateInfo` return a
nil error and the rate `1.0 / 0 = +Inf`, and so does the stealthex `estimateAmount`. -/
theorem rateInfo_zero_estimate_succeeds :
    Mock.changellyClient.GetExchangeRateInfo Mock.runtimeZeroEstimate Mock.changellyJson
        Mock.rateRequest []
      = { res := { ExchangeRate := Float64.inf false, Min := Float64.lit 1 100,
                   EstimatedAmount := Float64.zero },
          err := none,
          trace := [Effect.call (changelly.post "getMinAmount"), Effect.sleep 1000000000,
                    Effect.call (changelly.post "getExchangeAmount")] }
    ∧ Mock.changenowClient.GetExchangeRateInfo Mock.runtimeZeroEstimate
        Mock.changenowJsonZeroEstimate Mock.rateRequest []
      = { res := { ExchangeRate := Float64.inf false, Min := Float64.lit 1 100,
                   EstimatedAmount := Float64.zero },
          err := none,
          trace := [Effect.call (changenow.limitsRequest "btc" "ltc"),
                    Effect.sleep 1000000000,
                    Effect.call (changenow.estimateRequest Mock.runtimeZeroEstimate
                      Mock.changenowClient Mock.rateRequest)] }
    ∧ (Mock.stealthexClient.estimateAmount Mock.runtimeZeroEstimate
        Mock.stealthexJsonZeroEstimate Mock.rateRequest []).err = none
    ∧ (Mock.stealthexClient.estimateAmount Mock.runtimeZeroEstimate
        Mock.stealthexJsonZeroEstimate Mock.rateRequest []).res
      = { ExchangeRate := Float64.inf false, EstimatedAmount := Float64.zero } := by
  refine ⟨?_, ?_, ?_, ?_⟩ <;> decide

/-! ### Pacing of the rate protocol -/

/-- Whatever its outcome, the changelly `QueryLimits` whose envelope marshals to `pl` makes
exactly one transport call, with that body. -/
theorem changelly_queryLimits_trace {ρ : Type} (rt : Runtime) (js : changelly.Json ρ)
    (c : changelly.Changelly) (fromCurr toCurr : String) (h : Trace) (pl : String)
    (hp : js.marshal (changelly.limitsPayload rt fromCurr toCurr h) = Except.ok pl) :
    (c.QueryLimits rt js fromCurr toCurr h).trace = h ++ [Effect.call (changelly.post pl)] := by
  unfold changelly.limitsPayload at hp
  unfold changelly.Changelly.QueryLimits
  simp only [hp]
  repeat' split
  all_goals rfl

/-- Whatever its outcome, the changelly `EstimateAmount` whose envelope marshals to `pe`
makes exactly one transport call, with that body. -/
theorem changelly_estimateAmount_trace {ρ : Type} (rt : Runtime) (js : changelly.Json ρ)
    (c : changelly.Changelly) (vars : lightningswap.ExchangeRateRequest) (h : Trace)
    (pe : String) (hp : js.marshal (changelly.estimatePayload rt vars h) = Except.ok pe) :
    (c.EstimateAmount rt js vars h).trace = h ++ [Effect.call (changelly.post pe)] := by
  unfold changelly.estimatePayload at hp
  unfold changelly.Changelly.EstimateAmount
  simp only [hp]
  repeat' split
  all_goals rfl

/-- Whatever its outcome, the changenow `QueryLimits` makes exactly one transport call. -/
theorem changenow_queryLimits_trace (rt : Runtime) (jn : changenow.Json)
    (d : changenow.ChangeNow) (fromCurr toCurr : String) (h : Trace) :
    (d.QueryLimits rt jn fromCurr toCurr h).trace
      = h ++ [Effect.call (changenow.limitsRequest fromCurr toCurr)] := by
  unfold changenow.ChangeNow.QueryLimits
  simp only []
  repeat' split
  all_goals rfl

/-- Whatever its outcome, the changenow `EstimateAmount` makes exactly one transport
call. -/
theorem changenow_estimateAmount_trace (rt : Runtime) (jn : changenow.Json)
    (d : changenow.ChangeNow) (vars : lightningswap.ExchangeRateRequest) (h : Trace) :
    (d.EstimateAmount rt jn vars h).trace
      = h ++ [Effect.call (changenow.estimateRequest rt d vars)] := by
  unfold changenow.ChangeNow.EstimateAmount
  simp only []
  repeat' split
  all_goals rfl

/-- C12. For changelly and changenow, with `json.Marshal` succeeding on the request
envelopes: a run of `GetExchangeRateInfo` after the history `h` adds to it, when
`QueryLimits` succeeds, exactly the limits transport call, a sleep of one second
(`1000000000` nanoseconds) and the estimate transport call, in that order, whatever the
outcome of the estimate; when `QueryLimits` fails it adds the limits call alone. -/
theorem rateInfo_pacing {ρ : Type} (rt : Runtime) (js : changelly.Json ρ)
    (jn : changenow.Json) (c : changelly.Changelly) (d : changenow.ChangeNow)
    (vars : lightningswap.ExchangeRateRequest) (h : Trace)
    (hm : ∀ p, ∃ payload, js.marshal p = Except.ok payload) :
    (∃ pl pe,
      js.marshal (changelly.limitsPayload rt vars.From vars.To h) = Except.ok pl
      ∧ js.marshal (changelly.estimatePayload rt vars
          (h ++ [Effect.call (changelly.post pl), Effect.sleep 1000000000])) = Except.ok pe
      ∧ ((c.QueryLimits rt js vars.From vars.To h).err ≠ none →
          (c.GetExchangeRateInfo rt js vars h).trace = h ++ [Effect.call (changelly.post pl)])
      ∧ ((c.QueryLimits rt js vars.From vars.To h).err = none →
          (c.GetExchangeRateInfo rt js vars h).trace
            = h ++ [Effect.call (changelly.post pl), Effect.sleep 1000000000,
                    Effect.call (changelly.post pe)]))
    ∧ ((d.QueryLimits rt jn vars.From vars.To h).err ≠ none →
        (d.GetExchangeRateInfo rt jn vars h).trace
          = h ++ [Effect.call (changenow.limitsRequest vars.From vars.To)])
    ∧ ((d.QueryLimits rt jn vars.From vars.To h).err = none →
        (d.GetExchangeRateInfo rt jn vars h).trace
          = h ++ [Effect.call (changenow.limitsRequest vars.From vars.To),
                  Effect.sleep 1000000000,
                  Effect.call (changenow.estimateRequest rt d vars)]) := by
  have hsec : timeSecond * 1 = 1000000000 := by decide
  refine ⟨?_, ?_, ?_⟩
  · obtain ⟨pl, hpl⟩ := hm (changelly.limitsPayload rt vars.From vars.To h)
    obtain ⟨pe, hpe⟩ := hm (changelly.estimatePayload rt vars
      (h ++ [Effect.call (changelly.post pl), Effect.sleep 1000000000]))
    have hlt := changelly_queryLimits_trace rt js c vars.From vars.To h pl hpl
    have het := changelly_estimateAmount_trace rt js c vars
      (h ++ [Effect.call (changelly.post pl), Effect.sleep 1000000000]) pe hpe
    refine ⟨pl, pe, hpl, hpe, ?_, ?_⟩
    · intro hne
      unfold changelly.Changelly.GetExchangeRateInfo
      simp only []
      split
      · exact hlt
      · rename_i hnone
        exact absurd hnone hne
    · intro hnone
      have h1 : (c.QueryLimits rt js vars.From vars.To h).trace
          ++ [Effect.sleep (timeSecond * 1)]
          = h ++ [Effect.call (changelly.post pl), Effect.sleep 1000000000] := by
        rw [hlt, hsec]; simp
      unfold changelly.Changelly.GetExchangeRateInfo
      simp only [hnone, h1]
      split <;> simp [het]
  · intro hne
    unfold changenow.ChangeNow.GetExchangeRateInfo
    simp only []
    split
    · exact changenow_queryLimits_trace rt jn d vars.From vars.To h
    · rename_i hnone
      exact absurd hnone hne
  · intro hnone
    have h1 : (d.QueryLimits rt jn vars.From vars.To h).trace
        ++ [Effect.sleep (timeSecond * 1)]
        = h ++ [Effect.call (changenow.limitsRequest vars.From vars.To),
                Effect.sleep 1000000000] := by
      rw [changenow_queryLimits_trace, hsec]; simp
    unfold changenow.ChangeNow.GetExchangeRateInfo
    simp only [hnone, h1]
    split <;> simp [changenow_estimateAmount_trace]

/-- C12 on the round-trip request after an empty history: with the answering transport
both adapters leave the history limits call, one second of sleep, estimate call; with the
transport down they leave the limits call alone. -/
theorem rateInfo_pacing_witness :
    (∀ p, ∃ payload, Mock.changellyJson.marshal p = Except.ok payload)
    ∧ (Mock.changellyClient.GetExchangeRateInfo Mock.runtime Mock.changellyJson
        Mock.rateRequest []).trace
      = [Effect.call (changelly.post "getMinAmount"), Effect.sleep 1000000000,
         Effect.call (changelly.post "getExchangeAmount")]
    ∧ (Mock.changenowClient.GetExchangeRateInfo Mock.runtime Mock.changenowJson
        Mock.rateRequest []).trace
      = [Effect.call (changenow.limitsRequest "btc" "ltc"), Effect.sleep 1000000000,
         Effect.call (changenow.estimateRequest Mock.runtime Mock.changenowClient
           Mock.rateRequest)]
    ∧ (Mock.changellyClient.GetExchangeRateInfo Mock.runtimeDown Mock.changellyJson
        Mock.rateRequest []).trace
      = [Effect.call (changelly.post "getMinAmount")]
    ∧ (Mock.changenowClient.GetExchangeRateInfo Mock.runtimeDown Mock.changenowJson
        Mock.rateRequest []).trace
      = [Effect.call (changenow.limitsRequest "btc" "ltc")] := by
  have hm : ∀ p, ∃ payload, Mock.changellyJson.marshal p = Except.ok payload :=
    fun p => ⟨p.Method, rfl⟩
  have hup := rateInfo_pacing Mock.runtime Mock.changellyJson Mock.changenowJson
    Mock.changellyClient Mock.changenowClient Mock.rateRequest [] hm
  have hdown := rateInfo_pacing Mock.runtimeDown Mock.changellyJson Mock.changenowJson
    Mock.changellyClient Mock.changenowClient Mock.rateRequest [] hm
  refine ⟨hm, ?_, ?_, ?_, ?_⟩
  · obtain ⟨pl, pe, hpl, hpe, _, hok⟩ := hup.1
    have h1 : pl = "getMinAmount" := (Except.ok.inj hpl).symm
    have h2 : pe = "getExchangeAmount" := (Except.ok.inj hpe).symm
    rw [hok (by decide), h1, h2]
    rfl
  · rw [hup.2.2 (by decide)]
    rfl
  · obtain ⟨pl, pe, hpl, _, hfail, _⟩ := hdown.1
    have h1 : pl = "getMinAmount" := (Except.ok.inj hpl).symm
    rw [hfail (by decide), h1]
    rfl
  · rw [hdown.2.1 (by decide)]
    rfl

/-! ### The stealthex bounds -/

/-- When the estimate and the range call both succeed, the stealthex
`GetExchangeRateInfo` returns the result of the estimate call as it is, whose bounds are
zero: the decoded range is not read. -/
theorem stealthex_range_success_ignored (rt : Runtime) (js : stealthex.Json)
    (s : stealthex.stealthex) (vars : lightningswap.ExchangeRateRequest) (h : Trace)
    (hest : (s.estimateAmount rt js vars h).err = none)
    (hrange : (s.getRange rt js vars (s.estimateAmount rt js vars h).trace).err = none) :
    s.GetExchangeRateInfo rt js vars h
      = stealthex.Outcome.returned
          { res := (s.estimateAmount rt js vars h).res, err := none,
            trace := (s.getRange rt js vars (s.estimateAmount rt js vars h).trace).trace }
    ∧ (s.estimateAmount rt js vars h).res.Min = Float64.zero
    ∧ (s.estimateAmount rt js vars h).res.Max = Float64.zero := by
  refine ⟨?_, ?_, ?_⟩
  · unfold stealthex.stealthex.GetExchangeRateInfo
    simp only [hest, hrange]
  · unfold stealthex.stealthex.estimateAmount
    simp only []
    repeat' split
    all_goals rfl
  · unfold stealthex.stealthex.estimateAmount
    simp only []
    repeat' split
    all_goals rfl

/-- C13. With an estimate of `2.5` and a range call that succeeds with the decoded range
`{min_amount = 0.01, max_amount = 2.5}`, the stealthex `GetExchangeRateInfo` returns
`Min = 0` and `Max = 0` (next to the estimated amount `2.5` and the rate `0.4`). -/
theorem stealthex_rateInfo_bounds_dropped :
    (Mock.stealthexClient.estimateAmount Mock.runtime Mock.stealthexJson Mock.rateRequest
        []).err = none
    ∧ (Mock.stealthexClient.getRange Mock.runtime Mock.stealthexJson Mock.rateRequest
        (Mock.stealthexClient.estimateAmount Mock.runtime Mock.stealthexJson Mock.rateRequest
          []).trace).err = none
    ∧ (Mock.stealthexClient.getRange Mock.runtime Mock.stealthexJson Mock.rateRequest
        (Mock.stealthexClient.estimateAmount Mock.runtime Mock.stealthexJson Mock.rateRequest
          []).trace).res
      = some { MinAmount := Float64.lit 1 100, MaxAmount := Float64.lit 25 10 }
    ∧ Mock.stealthexClient.GetExchangeRateInfo Mock.runtime Mock.stealthexJson
        Mock.rateRequest []
      = stealthex.Outcome.returned
          { res := { ExchangeRate := Float64.lit 4 10, Min := Float64.zero,
                     Max := Float64.zero, EstimatedAmount := Float64.lit 25 10 },
            err := none,
            trace :=
              [Effect.call { base := "https://api.stealthex.io/api/v2/", method := "GET",
                             path := "estimate/btc/ltc?api_key=key&fixed=true&amount=1.00000000",
                             body := "", signed := false },
               Effect.call { base := "https://api.stealthex.io/api/v2/", method := "GET",
                             path := "range/btc/ltc?api_key=key&fixed=true", body := "",
                             signed := false }] }
    ∧ Float64.eq (Float64.lit 1 100) Float64.zero = false
    ∧ Float64.eq (Float64.lit 25 10) Float64.zero = false := by
  refine ⟨?_, ?_, ?_, ?_, ?_, ?_⟩ <;> decide

/-! ### The changenow order amount -/

/-- For a decoded changenow response `tmp`, `OrderInfo` reports the received amount when
the native status is exactly the string `finished` and the expected amount otherwise, and
the canonical status of the native status. -/
theorem changenow_orderInfo_of_decoded (rt : Runtime) (jn : changenow.Json)
    (d : changenow.ChangeNow) (orderID r : String) (h : Trace)
    (tmp : changenow.OrderInfoResult)
    (hdo : rt.Do d.client h
      { base := changenow.API_BASE, method := "GET",
        path := "transactions/" ++ orderID ++ "/" ++ d.conf.ApiKey, body := "",
        signed := false } = Except.ok r)
    (hdec : jn.unmarshalOrderInfo r = Except.ok tmp) :
    (d.OrderInfo rt jn orderID h).err = none
    ∧ (d.OrderInfo rt jn orderID h).res.InternalStatus
        = changenow.GetLocalStatus rt.unicodeLower tmp.Status
    ∧ (d.OrderInfo rt jn orderID h).res.ReceiveAmount
        = if tmp.Status = "finished" then tmp.AmountReceive else tmp.ExpectedAmountReceive := by
  unfold changenow.ChangeNow.OrderInfo
  simp only [hdo, hdec]
  refine ⟨trivial, trivial, ?_⟩
  by_cases hs : tmp.Status = "finished" <;> simp [hs]

/-- C14. For the decoded response with native status `FINISHED`, expected amount `2.5` and
received amount `1.0`, the changenow `OrderInfo` reports the canonical status `Completed`
and the receive amount `2.5`, the expected one; with the native status `finished` it
reports `1.0`. -/
theorem changenow_orderInfo_amount_case_sensitive :
    (Mock.changenowClient.OrderInfo Mock.runtime Mock.changenowJsonUpperFinished "abc123"
        []).err = none
    ∧ (Mock.changenowClient.OrderInfo Mock.runtime Mock.changenowJsonUpperFinished "abc123"
        []).res.InternalStatus = lightningswap.Status.OrderStatusCompleted
    ∧ (Mock.changenowClient.OrderInfo Mock.runtime Mock.changenowJsonUpperFinished "abc123"
        []).res.ReceiveAmount = Float64.lit 25 10
    ∧ (Mock.changenowClient.OrderInfo Mock.runtime Mock.changenowJsonUpperFinished "abc123"
        []).res.ReceiveAmount ≠ Float64.lit 1 1
    ∧ (Mock.changenowClient.OrderInfo Mock.runtime Mock.changenowJsonFinished "abc123"
        []).res.InternalStatus = lightningswap.Status.OrderStatusCompleted
    ∧ (Mock.changenowClient.OrderInfo Mock.runtime Mock.changenowJsonFinished "abc123"
        []).res.ReceiveAmount = Float64.lit 1 1 := by
  refine ⟨?_, ?_, ?_, ?_, ?_, ?_⟩ <;> decide
